import Mathlib

/-!
Verification of the socket-io presentation relay server.

The development shallowly embeds the two server variants of the repository:
the room-based server (src/unnamed/part_000, version 2.2.0) and the
single-room server (src/server.js, version 1.0.0).  Socket handlers become
pure functions from a server state and an incoming payload to a new state
plus a list of outbound transport events; JavaScript objects become
association lists of JsVal; the server wall clock is a Nat parameter, and
the random source of the code generator is an explicit index stream.
-/

namespace PresRelay

/-- A JavaScript value, restricted to the shapes the relay protocol touches.
Objects are modelled as opaque references (an identifier), since the relay
never inspects inside a params or metadata object.  Numbers are modelled as
integers: every numeric comparison in the source (slideIndex below zero,
pageNumber below one, truthiness of zero) is integer-valued on the inputs
the claims concern. -/
inductive JsVal where
  | vUndefined
  | vNull
  | vBool (b : Bool)
  | vNum (n : Int)
  | vStr (s : String)
  | vObj (oid : Nat)
deriving DecidableEq, Repr

/-- JavaScript truthiness, as used by conditions like "data.action" and
defaulting expressions like "data.pageNumber || 1". -/
def JsVal.truthy : JsVal → Bool
  | .vUndefined => false
  | .vNull => false
  | .vBool b => b
  | .vNum n => n != 0
  | .vStr s => s != ""
  | .vObj _ => true

/-- JavaScript toString coercion, as used by "data.roomId.toString()". -/
def JsVal.toStr : JsVal → String
  | .vUndefined => "undefined"
  | .vNull => "null"
  | .vBool b => if b then "true" else "false"
  | .vNum n => toString n
  | .vStr s => s
  | .vObj _ => "[object Object]"

/-- The check "typeof x === 'number'". -/
def JsVal.isNumber : JsVal → Bool
  | .vNum _ => true
  | _ => false

/-- Lookup in an association list keyed by strings (models Map.get and
JavaScript property access). -/
def findA {α : Type} : List (String × α) → String → Option α
  | [], _ => none
  | (k, v) :: t, key => if k = key then some v else findA t key

/-- Insert or replace in an association list, keeping insertion order
(models Map.set). -/
def setA {α : Type} : List (String × α) → String → α → List (String × α)
  | [], key, v => [(key, v)]
  | (k, w) :: t, key, v => if k = key then (key, v) :: t else (k, w) :: setA t key v

/-- Remove a key from an association list (models Map.delete). -/
def eraseA {α : Type} : List (String × α) → String → List (String × α)
  | [], _ => []
  | (k, w) :: t, key => if k = key then t else (k, w) :: eraseA t key

/-- Read a property of a payload object; a missing property is undefined. -/
def getF (d : List (String × JsVal)) (k : String) : JsVal :=
  (findA d k).getD .vUndefined

/-- Override a property of a payload object, as an object spread with a
trailing explicit property does. -/
def setF (d : List (String × JsVal)) (k : String) (v : JsVal) : List (String × JsVal) :=
  (d.filter fun p => p.1 != k) ++ [(k, v)]

/-- The alphabet of generated room codes, from generateRoomId in
src/unnamed/part_000: alphanumeric with the confusable characters
0, O, 1 and I left out. -/
def roomIdAlphabet : String := "ABCDEFGHJKLMNPQRSTUVWXYZ23456789"

/-- generateRoomId from src/unnamed/part_000 lines 74 to 82: six characters,
each picked from the 32-character alphabet by an independent random draw.
The random source is the explicit stream r of draws; the function takes no
room table, exactly as in the source. -/
def generateRoomId (r : Fin 6 → Fin 32) : String :=
  ⟨List.ofFn fun i : Fin 6 => roomIdAlphabet.data.getD (r i).val ' '⟩

/-- validateRoomId from src/unnamed/part_000 lines 84 to 86.  The argument
is always a string at the call sites (the handlers call toString first), so
the typeof check and the truthiness check reduce to the length bound. -/
def validateRoomId (s : String) : Bool := decide (4 ≤ s.length)

/-- Per-connection data the room server keeps on each socket object:
the transport connected flag plus the fields the handlers assign
(socket.roomId, socket.deviceType, socket.deviceName, socket.isHealthy,
socket.lastPing, socket.lastPong). -/
structure Sock where
  connected : Bool := true
  roomId : Option String := none
  deviceType : Option String := none
  deviceName : JsVal := .vUndefined
  isHealthy : Bool := true
  lastPing : Option Nat := none
  lastPong : Option Nat := none
deriving DecidableEq, Repr

/-- A room of the room server: two optional peer slots holding socket ids
(the source holds socket references; identity is the socket id) and the
creation time. -/
structure Room where
  tv : Option String := none
  mobile : Option String := none
  createdAt : Nat := 0
deriving DecidableEq, Repr

/-- The aggregate connection counters of the room server. -/
structure Stats where
  totalConnections : Nat := 0
  currentConnections : Nat := 0
  activeRooms : Nat := 0
  mobileConnections : Nat := 0
  tvConnections : Nat := 0
deriving DecidableEq, Repr

/-- The whole mutable state of the room server: the socket registry, the
rooms map and the statistics object. -/
structure ServerState where
  socks : List (String × Sock) := []
  rooms : List (String × Room) := []
  stats : Stats := {}
deriving DecidableEq, Repr

/-- An outbound transport action: an emit of a named event with a payload to
one peer, or a forced disconnect of one peer. -/
inductive Ev where
  | emit (target : String) (name : String) (payload : List (String × JsVal))
  | disconnectCmd (target : String)
deriving DecidableEq, Repr

/-- The socket record of a connection id; an id absent from the registry
behaves as a dead connection. -/
def sockOf (S : ServerState) (sid : String) : Sock :=
  (findA S.socks sid).getD { connected := false }

/-- The check "slot && slot.connected" (equally "slot?.connected") on an
optional slot occupant. -/
def slotLive (S : ServerState) (o : Option String) : Bool :=
  match o with
  | none => false
  | some t => (sockOf S t).connected

/-- Update (or, for an id never seen, insert) one socket record. -/
def updateSock (S : ServerState) (sid : String) (f : Sock → Sock) : ServerState :=
  { S with socks := setA S.socks sid (f (sockOf S sid)) }

/-- A socket error emit with a message and a stable error code. -/
def errEv (sid msg code : String) : Ev :=
  .emit sid "error" [("message", .vStr msg), ("code", .vStr code)]

/-- A socket error emit that also echoes the offending room id. -/
def errEvRoom (sid msg code roomId : String) : Ev :=
  .emit sid "error" [("message", .vStr msg), ("code", .vStr code), ("roomId", .vStr roomId)]

/-- Resolution of the room code at the top of the register_tv handler
(src/unnamed/part_000 lines 256 to 262): a truthy caller-supplied roomId is
coerced with toString, otherwise a code is generated; a candidate failing
validateRoomId is replaced by a generated code.  The room table is not an
argument: resolution never consults it. -/
def resolveRoomId (data : List (String × JsVal)) (r : Fin 6 → Fin 32) : String :=
  let c := if (getF data "roomId").truthy then (getF data "roomId").toStr else generateRoomId r
  if validateRoomId c then c else generateRoomId r

/-- The register_tv handler of src/unnamed/part_000 lines 251 to 341. -/
def registerTv (S : ServerState) (sid : String) (data : List (String × JsVal))
    (r : Fin 6 → Fin 32) (now : Nat) : ServerState × List Ev :=
  let roomId := resolveRoomId data r
  -- eviction of a connected incumbent TV with a different socket id
  let (S1, evs1) :=
    match findA S.rooms roomId with
    | some rm =>
      match rm.tv with
      | some t =>
        if (sockOf S t).connected ∧ t ≠ sid then
          ({ updateSock S t (fun s => { s with connected := false }) with
             stats := { S.stats with tvConnections := S.stats.tvConnections - 1 } },
           [Ev.emit t "replaced"
              [("message", .vStr "New TV connected to this room"), ("timestamp", .vNum now)],
            Ev.disconnectCmd t])
        else (S, [])
      | none => (S, [])
    | none => (S, [])
  -- create the room when absent
  let S2 :=
    if (findA S1.rooms roomId).isNone then
      let rooms2 := setA S1.rooms roomId { tv := none, mobile := none, createdAt := now }
      { S1 with rooms := rooms2, stats := { S1.stats with activeRooms := rooms2.length } }
    else S1
  let rm := (findA S2.rooms roomId).getD { tv := none, mobile := none, createdAt := now }
  let rm2 : Room := { rm with tv := some sid }
  let dn := if (getF data "deviceName").truthy then getF data "deviceName" else .vStr "TV Display"
  let S3 := { S2 with rooms := setA S2.rooms roomId rm2 }
  let S4 := updateSock S3 sid
    (fun s => { s with roomId := some roomId, deviceType := some "tv", deviceName := dn })
  let S5 := { S4 with stats := { S4.stats with tvConnections := S4.stats.tvConnections + 1 } }
  let ack := Ev.emit sid "registered"
    [("deviceType", .vStr "tv"), ("roomId", .vStr roomId), ("clientId", .vStr sid),
     ("timestamp", .vNum now), ("message", .vStr "TV registered successfully")]
  let evs2 :=
    match rm2.mobile with
    | some m =>
      if (sockOf S4 m).connected then
        let mdn := if (sockOf S4 m).deviceName.truthy then (sockOf S4 m).deviceName
                   else .vStr "Mobile Controller"
        [Ev.emit m "tv_connected"
           [("status", .vStr "tv_connected"), ("deviceId", .vStr sid),
            ("deviceName", dn), ("timestamp", .vNum now)],
         Ev.emit sid "mobile_connected"
           [("status", .vStr "mobile_connected"), ("deviceId", .vStr m),
            ("deviceName", mdn), ("timestamp", .vNum now)]]
      else []
    | none => []
  (S5, evs1 ++ [ack] ++ evs2)

/-- The register_mobile handler of src/unnamed/part_000 lines 344 to 440. -/
def registerMobile (S : ServerState) (sid : String) (data : List (String × JsVal))
    (now : Nat) : ServerState × List Ev :=
  if (getF data "roomId").truthy = false then
    (S, [errEv sid "Room ID is required for mobile registration" "ROOM_ID_REQUIRED"])
  else
    let roomId := (getF data "roomId").toStr
    if validateRoomId roomId = false then
      (S, [errEv sid "Invalid room ID format" "INVALID_ROOM_ID"])
    else
      match findA S.rooms roomId with
      | none =>
        (S, [errEvRoom sid
              "Room not found. Make sure the TV is connected and displaying the correct room code."
              "ROOM_NOT_FOUND" roomId])
      | some rm =>
        match rm.tv with
        | none =>
          (S, [errEvRoom sid "No TV connected in this room. Please make sure the TV is online."
                "NO_TV_IN_ROOM" roomId])
        | some t =>
          if (sockOf S t).connected = false then
            (S, [errEvRoom sid "No TV connected in this room. Please make sure the TV is online."
                  "NO_TV_IN_ROOM" roomId])
          else
            -- eviction of a connected incumbent mobile with a different socket id
            let (S1, evs1) :=
              match rm.mobile with
              | some m =>
                if (sockOf S m).connected ∧ m ≠ sid then
                  ({ updateSock S m (fun s => { s with connected := false }) with
                     stats := { S.stats with
                                mobileConnections := S.stats.mobileConnections - 1 } },
                   [Ev.emit m "replaced"
                      [("message", .vStr "New mobile device connected to this room"),
                       ("timestamp", .vNum now)],
                    Ev.disconnectCmd m])
                else (S, [])
              | none => (S, [])
            let dn := if (getF data "deviceName").truthy then getF data "deviceName"
                      else .vStr "Mobile Controller"
            let S2 := { S1 with rooms := setA S1.rooms roomId { rm with mobile := some sid } }
            let S3 := updateSock S2 sid
              (fun s => { s with roomId := some roomId, deviceType := some "mobile",
                                 deviceName := dn })
            let S4 := { S3 with stats :=
              { S3.stats with mobileConnections := S3.stats.mobileConnections + 1 } }
            let ack := Ev.emit sid "registered"
              [("deviceType", .vStr "mobile"), ("roomId", .vStr roomId),
               ("clientId", .vStr sid), ("connectedTV", .vBool true), ("tvId", .vStr t),
               ("timestamp", .vNum now), ("message", .vStr "Mobile registered successfully")]
            let notifyTv := Ev.emit t "mobile_connected"
              [("status", .vStr "mobile_connected"), ("deviceId", .vStr sid),
               ("deviceName", dn), ("timestamp", .vNum now)]
            (S4, evs1 ++ [ack, notifyTv])

/-- The slide_change handler of src/unnamed/part_000 lines 443 to 493.
Relay handlers never mutate the server state; they only emit. -/
def slideChange (S : ServerState) (sid : String) (data : List (String × JsVal))
    (now : Nat) : ServerState × List Ev :=
  let sk := sockOf S sid
  if ¬ (sk.deviceType = some "mobile" ∧ sk.roomId.isSome) then
    (S, [errEv sid "Unauthorized: Only mobile devices in a room can change slides"
          "UNAUTHORIZED_SLIDE_CHANGE"])
  else
    let rid := sk.roomId.getD ""
    let rm? := findA S.rooms rid
    if ¬ (rm?.isSome ∧ slotLive S ((rm?.getD {}).tv) = true) then
      (S, [errEv sid "TV not connected in this room" "NO_TV_IN_ROOM"])
    else
      let rm := rm?.getD {}
      let t := rm.tv.getD ""
      match getF data "slideIndex" with
      | .vNum i =>
        if i < 0 then
          (S, [errEv sid "Invalid slide index" "INVALID_SLIDE_INDEX"])
        else
          (S, [Ev.emit t "slide_change"
                 [("slideIndex", .vNum i), ("roomId", .vStr rid),
                  ("timestamp", .vNum now), ("from", .vStr sid)],
               Ev.emit sid "slide_change_ack"
                 [("slideIndex", .vNum i), ("timestamp", .vNum now)]])
      | _ => (S, [errEv sid "Invalid slide index" "INVALID_SLIDE_INDEX"])

/-- The pdf_scroll handler of src/unnamed/part_000 lines 496 to 541.  A
falsy pageNumber in the incoming payload is replaced by 1 before delivery
(the source forwards data.pageNumber or 1). -/
def pdfScroll (S : ServerState) (sid : String) (data : List (String × JsVal))
    (now : Nat) : ServerState × List Ev :=
  let sk := sockOf S sid
  if ¬ (sk.deviceType = some "mobile" ∧ sk.roomId.isSome) then
    (S, [errEv sid "Unauthorized: Only mobile devices in a room can scroll PDF"
          "UNAUTHORIZED_PDF_SCROLL"])
  else
    let rid := sk.roomId.getD ""
    let rm? := findA S.rooms rid
    if ¬ (rm?.isSome ∧ slotLive S ((rm?.getD {}).tv) = true) then
      (S, [errEv sid "TV not connected in this room" "NO_TV_IN_ROOM"])
    else
      let rm := rm?.getD {}
      let t := rm.tv.getD ""
      if (getF data "scrollOffset").isNumber = false then
        (S, [errEv sid "Invalid scroll offset" "INVALID_SCROLL_OFFSET"])
      else
        (S, [Ev.emit t "pdf_scroll"
               [("scrollOffset", getF data "scrollOffset"),
                ("pageNumber",
                  if (getF data "pageNumber").truthy then getF data "pageNumber" else .vNum 1),
                ("roomId", .vStr rid), ("timestamp", .vNum now), ("from", .vStr sid)]])

/-- The pdf_page_change handler of src/unnamed/part_000 lines 544 to 588. -/
def pdfPageChange (S : ServerState) (sid : String) (data : List (String × JsVal))
    (now : Nat) : ServerState × List Ev :=
  let sk := sockOf S sid
  if ¬ (sk.deviceType = some "mobile" ∧ sk.roomId.isSome) then
    (S, [errEv sid "Unauthorized: Only mobile devices in a room can change PDF pages"
          "UNAUTHORIZED_PDF_PAGE_CHANGE"])
  else
    let rid := sk.roomId.getD ""
    let rm? := findA S.rooms rid
    if ¬ (rm?.isSome ∧ slotLive S ((rm?.getD {}).tv) = true) then
      (S, [errEv sid "TV not connected in this room" "NO_TV_IN_ROOM"])
    else
      let rm := rm?.getD {}
      let t := rm.tv.getD ""
      match getF data "pageNumber" with
      | .vNum p =>
        if p < 1 then
          (S, [errEv sid "Invalid page number" "INVALID_PAGE_NUMBER"])
        else
          (S, [Ev.emit t "pdf_page_change"
                 [("pageNumber", .vNum p), ("roomId", .vStr rid),
                  ("timestamp", .vNum now), ("from", .vStr sid)]])
      | _ => (S, [errEv sid "Invalid page number" "INVALID_PAGE_NUMBER"])

/-- The presentation_action handler of src/unnamed/part_000 lines 591 to
636.  The only payload validation is that data.action is truthy: any truthy
action value is forwarded, with no membership test against a fixed action
set. -/
def presentationAction (S : ServerState) (sid : String) (data : List (String × JsVal))
    (now : Nat) : ServerState × List Ev :=
  let sk := sockOf S sid
  if ¬ (sk.deviceType = some "mobile" ∧ sk.roomId.isSome) then
    (S, [errEv sid "Unauthorized: Only mobile devices in a room can send presentation actions"
          "UNAUTHORIZED_PRESENTATION_ACTION"])
  else
    let rid := sk.roomId.getD ""
    let rm? := findA S.rooms rid
    if ¬ (rm?.isSome ∧ slotLive S ((rm?.getD {}).tv) = true) then
      (S, [errEv sid "TV not connected in this room" "NO_TV_IN_ROOM"])
    else
      let rm := rm?.getD {}
      let t := rm.tv.getD ""
      if (getF data "action").truthy = false then
        (S, [errEv sid "Action is required" "MISSING_ACTION"])
      else
        (S, [Ev.emit t "presentation_action"
               [("action", getF data "action"),
                ("params", if (getF data "params").truthy then getF data "params" else .vObj 0),
                ("roomId", .vStr rid), ("timestamp", .vNum now), ("from", .vStr sid)]])

/-- The load_document handler of src/unnamed/part_000 lines 639 to 685. -/
def loadDocument (S : ServerState) (sid : String) (data : List (String × JsVal))
    (now : Nat) : ServerState × List Ev :=
  let sk := sockOf S sid
  if ¬ (sk.deviceType = some "mobile" ∧ sk.roomId.isSome) then
    (S, [errEv sid "Unauthorized: Only mobile devices in a room can load documents"
          "UNAUTHORIZED_LOAD_DOCUMENT"])
  else
    let rid := sk.roomId.getD ""
    let rm? := findA S.rooms rid
    if ¬ (rm?.isSome ∧ slotLive S ((rm?.getD {}).tv) = true) then
      (S, [errEv sid "TV not connected in this room" "NO_TV_IN_ROOM"])
    else
      let rm := rm?.getD {}
      let t := rm.tv.getD ""
      if ¬ ((getF data "documentType").truthy = true ∧ (getF data "documentUrl").truthy = true) then
        (S, [errEv sid "Document type and URL are required" "MISSING_DOCUMENT_INFO"])
      else
        (S, [Ev.emit t "load_document"
               [("documentType", getF data "documentType"),
                ("documentUrl", getF data "documentUrl"),
                ("metadata",
                  if (getF data "metadata").truthy then getF data "metadata" else .vObj 0),
                ("roomId", .vStr rid), ("timestamp", .vNum now), ("from", .vStr sid)]])

/-- The custom_event handler of src/unnamed/part_000 lines 688 to 734:
either role may send; the payload is forwarded by spread to whichever
counterpart occupies the other slot. -/
def customEvent (S : ServerState) (sid : String) (data : List (String × JsVal))
    (now : Nat) : ServerState × List Ev :=
  let sk := sockOf S sid
  match sk.roomId with
  | none => (S, [errEv sid "Not in a room" "NO_ROOM"])
  | some rid =>
    match findA S.rooms rid with
    | none => (S, [errEv sid "Room not found" "ROOM_NOT_FOUND"])
    | some rm =>
      let target := if sk.deviceType = some "mobile" then rm.tv else rm.mobile
      match target with
      | some t =>
        if (sockOf S t).connected then
          (S, [Ev.emit t "custom_event"
                 (setF (setF (setF (setF data "roomId" (.vStr rid))
                    "timestamp" (.vNum now)) "from" (.vStr sid))
                    "fromDevice" ((sk.deviceType.map JsVal.vStr).getD .vUndefined))])
        else
          (S, [errEv sid
                (if sk.deviceType = some "mobile" then "TV not connected in this room"
                 else "Mobile not connected in this room")
                "TARGET_DEVICE_NOT_CONNECTED"])
      | none =>
        (S, [errEv sid
              (if sk.deviceType = some "mobile" then "TV not connected in this room"
               else "Mobile not connected in this room")
              "TARGET_DEVICE_NOT_CONNECTED"])

/-- cleanupRoom of src/unnamed/part_000 lines 114 to 132: notify still
connected occupants, delete the room, refresh the active-room counter.
Deleting an absent code is a no-op. -/
def cleanupRoom (S : ServerState) (roomId : String) (reason : String) : ServerState × List Ev :=
  match findA S.rooms roomId with
  | none => (S, [])
  | some rm =>
    let evsTv :=
      match rm.tv with
      | some t => if (sockOf S t).connected
                  then [Ev.emit t "room_cleanup" [("reason", .vStr reason)]] else []
      | none => []
    let evsMob :=
      match rm.mobile with
      | some m => if (sockOf S m).connected
                  then [Ev.emit m "room_cleanup" [("reason", .vStr reason)]] else []
      | none => []
    let rooms2 := eraseA S.rooms roomId
    ({ S with rooms := rooms2, stats := { S.stats with activeRooms := rooms2.length } },
     evsTv ++ evsMob)

/-- The slot-clearing block of the disconnect handler (src/unnamed/part_000
lines 771 to 802): when the closing socket still occupies the slot matching
its device type, empty that slot, adjust the role counter and notify the
still connected counterpart. -/
def dropPeerFromRoom (S1 : ServerState) (sid reason : String) (now : Nat)
    (rid : String) (rm : Room) : ServerState × List Ev × Room :=
  let sk := sockOf S1 sid
  if sk.deviceType = some "tv" ∧ rm.tv = some sid then
    let rm' : Room := { rm with tv := none }
    let S' := { S1 with rooms := setA S1.rooms rid rm',
                        stats := { S1.stats with
                          tvConnections := S1.stats.tvConnections - 1 } }
    let evs :=
      match rm'.mobile with
      | some m =>
        if (sockOf S' m).connected then
          [Ev.emit m "tv_disconnected"
             [("status", .vStr "disconnected"), ("deviceId", .vStr sid),
              ("reason", .vStr reason), ("timestamp", .vNum now)]]
        else []
      | none => []
    (S', evs, rm')
  else if sk.deviceType = some "mobile" ∧ rm.mobile = some sid then
    let rm' : Room := { rm with mobile := none }
    let S' := { S1 with rooms := setA S1.rooms rid rm',
                        stats := { S1.stats with
                          mobileConnections := S1.stats.mobileConnections - 1 } }
    let evs :=
      match rm'.tv with
      | some t =>
        if (sockOf S' t).connected then
          [Ev.emit t "mobile_disconnected"
             [("status", .vStr "disconnected"), ("deviceId", .vStr sid),
              ("reason", .vStr reason), ("timestamp", .vNum now)]]
        else []
      | none => []
    (S', evs, rm')
  else (S1, [], rm)

/-- The room-table part of the disconnect handler, run after the transport
has marked the socket closed and the connection counter was decremented:
clear the slot the peer still holds, notify the counterpart, and delete the
room when both slots are empty or dead. -/
def disconnectCore (S1 : ServerState) (sid : String) (reason : String)
    (now : Nat) : ServerState × List Ev :=
  let sk := sockOf S1 sid
  match sk.roomId with
  | none => (S1, [])
  | some rid =>
    match findA S1.rooms rid with
    | none => (S1, [])
    | some rm =>
      let dp := dropPeerFromRoom S1 sid reason now rid rm
      let S2 := dp.1
      let evs2 := dp.2.1
      let rm2 := dp.2.2
      if slotLive S2 rm2.tv = false ∧ slotLive S2 rm2.mobile = false then
        let cl := cleanupRoom S2 rid "all_devices_disconnected"
        (cl.1, evs2 ++ cl.2)
      else (S2, evs2)

/-- The disconnect handler of src/unnamed/part_000 lines 763 to 809.  The
transport marks the socket closed before the handler body runs, then the
handler decrements the connection counter and runs the room-table part. -/
def disconnectH (S : ServerState) (sid : String) (reason : String)
    (now : Nat) : ServerState × List Ev :=
  let S0 := updateSock S sid (fun s => { s with connected := false })
  let S1 := { S0 with stats :=
    { S0.stats with currentConnections := S0.stats.currentConnections - 1 } }
  disconnectCore S1 sid reason now

/-- The ping handler of src/unnamed/part_000 lines 737 to 744. -/
def pingH (S : ServerState) (sid : String) (now : Nat) : ServerState × List Ev :=
  (updateSock S sid (fun s => { s with isHealthy := true, lastPing := some now }),
   [Ev.emit sid "pong" [("timestamp", .vNum now), ("clientId", .vStr sid)]])

/-- The pong handler of src/unnamed/part_000 lines 747 to 750. -/
def pongH (S : ServerState) (sid : String) (now : Nat) : ServerState × List Ev :=
  (updateSock S sid (fun s => { s with isHealthy := true, lastPong := some now }), [])

/-- The probe sweep of src/unnamed/part_000 lines 830 to 852: a ping emit to
every connected occupant of every room, mobile before tv per room; no state
change. -/
def healthSweep (S : ServerState) (now : Nat) : ServerState × List Ev :=
  (S, S.rooms.foldl
    (fun evs p =>
      evs ++
      (match p.2.mobile with
       | some m => if (sockOf S m).connected then
           [Ev.emit m "ping" [("timestamp", .vNum now), ("type", .vStr "health_check")]] else []
       | none => []) ++
      (match p.2.tv with
       | some t => if (sockOf S t).connected then
           [Ev.emit t "ping" [("timestamp", .vNum now), ("type", .vStr "health_check")]] else []
       | none => []))
    [])

/-- The staleness test of the eviction sweep: not connected, or the last
pong is recorded and older than the two-minute timeout. -/
def unhealthySock (S : ServerState) (now : Nat) (sid : String) : Bool :=
  let s := sockOf S sid
  !s.connected ||
    (match s.lastPong with
     | some t => decide (now - t > 120000)
     | none => false)

/-- The mobile-slot step of the eviction sweep (src/unnamed/part_000 lines
862 to 877): when the mobile occupant is stale, send the timeout notice and
force the disconnect while it is still connected, empty the slot, decrement
the counter, and flag the room for deletion when the tv slot is empty or
dead.  Returns the new state, the events, the updated room value and the
cleanup flag. -/
def sweepSlotMobile (S : ServerState) (rm : Room) (now : Nat) :
    ServerState × List Ev × Room × Bool :=
  match rm.mobile with
  | some m =>
    if unhealthySock S now m then
      let evs :=
        if (sockOf S m).connected then
          [Ev.emit m "connection_timeout" [("message", .vStr "Connection timed out")],
           Ev.disconnectCmd m]
        else []
      let S' := updateSock S m (fun s => { s with connected := false })
      let S'' := { S' with stats :=
        { S'.stats with mobileConnections := S'.stats.mobileConnections - 1 } }
      (S'', evs, { rm with mobile := none }, !(slotLive S'' rm.tv))
    else (S, ([] : List Ev), rm, false)
  | none => (S, ([] : List Ev), rm, false)

/-- The tv-slot step of the eviction sweep (src/unnamed/part_000 lines 880
to 894), run after the mobile step on its resulting state, room value and
cleanup flag. -/
def sweepSlotTv (Sa : ServerState) (rmA : Room) (cleanA : Bool) (now : Nat) :
    ServerState × List Ev × Room × Bool :=
  match rmA.tv with
  | some t =>
    if unhealthySock Sa now t then
      let evs :=
        if (sockOf Sa t).connected then
          [Ev.emit t "connection_timeout" [("message", .vStr "Connection timed out")],
           Ev.disconnectCmd t]
        else []
      let S' := updateSock Sa t (fun s => { s with connected := false })
      let S'' := { S' with stats :=
        { S'.stats with tvConnections := S'.stats.tvConnections - 1 } }
      (S'', evs, { rmA with tv := none }, cleanA || !(slotLive S'' rmA.mobile))
    else (Sa, ([] : List Ev), rmA, cleanA)
  | none => (Sa, ([] : List Ev), rmA, cleanA)

/-- One room step of the eviction sweep of src/unnamed/part_000 lines 855 to
901: drop an unhealthy mobile (timeout notice then forced disconnect when
still connected), then an unhealthy tv, then delete the room when the
remaining slots are empty or dead. -/
def sweepRoom (S : ServerState) (rid : String) (now : Nat) : ServerState × List Ev :=
  match findA S.rooms rid with
  | none => (S, [])
  | some rm =>
    let a := sweepSlotMobile S rm now
    let b := sweepSlotTv a.1 a.2.2.1 a.2.2.2 now
    let Sc := { b.1 with rooms := setA b.1.rooms rid b.2.2.1 }
    if b.2.2.2 then
      let cl := cleanupRoom Sc rid "unhealthy_connections"
      (cl.1, a.2.1 ++ b.2.1 ++ cl.2)
    else (Sc, a.2.1 ++ b.2.1)

/-- The eviction sweep over the whole table, iterating the room keys of the
entry snapshot. -/
def unhealthySweep (S : ServerState) (now : Nat) : ServerState × List Ev :=
  (S.rooms.map Prod.fst).foldl
    (fun acc rid =>
      let st := sweepRoom acc.1 rid now
      (st.1, acc.2 ++ st.2))
    (S, [])

/-- The expiry test of src/unnamed/part_000 lines 904 to 925: both slots
empty or dead, and the room older than the thirty-minute timeout. -/
def roomExpired (S : ServerState) (now : Nat) (rm : Room) : Bool :=
  slotLive S rm.tv = false && slotLive S rm.mobile = false &&
    decide (now - rm.createdAt > 1800000)

/-- The expiry sweep: collect the expired empty rooms of the snapshot, then
clean each up. -/
def expirySweep (S : ServerState) (now : Nat) : ServerState × List Ev :=
  ((S.rooms.filter fun p => roomExpired S now p.2).map Prod.fst).foldl
    (fun acc rid =>
      let st := cleanupRoom acc.1 rid "expired"
      (st.1, acc.2 ++ st.2))
    (S, [])

/-- One inbound operation of the room server core. -/
inductive Op where
  | opRegisterTv (sid : String) (data : List (String × JsVal)) (r : Fin 6 → Fin 32)
  | opRegisterMobile (sid : String) (data : List (String × JsVal))
  | opSlideChange (sid : String) (data : List (String × JsVal))
  | opPdfScroll (sid : String) (data : List (String × JsVal))
  | opPdfPageChange (sid : String) (data : List (String × JsVal))
  | opPresentationAction (sid : String) (data : List (String × JsVal))
  | opLoadDocument (sid : String) (data : List (String × JsVal))
  | opCustomEvent (sid : String) (data : List (String × JsVal))
  | opPing (sid : String)
  | opPong (sid : String)
  | opDisconnect (sid : String) (reason : String)
  | opHealthSweep
  | opUnhealthySweep
  | opExpirySweep

/-- Dispatch of one complete operation of the room server. -/
def step (S : ServerState) (o : Op) (now : Nat) : ServerState × List Ev :=
  match o with
  | .opRegisterTv sid data r => registerTv S sid data r now
  | .opRegisterMobile sid data => registerMobile S sid data now
  | .opSlideChange sid data => slideChange S sid data now
  | .opPdfScroll sid data => pdfScroll S sid data now
  | .opPdfPageChange sid data => pdfPageChange S sid data now
  | .opPresentationAction sid data => presentationAction S sid data now
  | .opLoadDocument sid data => loadDocument S sid data now
  | .opCustomEvent sid data => customEvent S sid data now
  | .opPing sid => pingH S sid now
  | .opPong sid => pongH S sid now
  | .opDisconnect sid reason => disconnectH S sid reason now
  | .opHealthSweep => healthSweep S now
  | .opUnhealthySweep => unhealthySweep S now
  | .opExpirySweep => expirySweep S now

/-- The client table of the single-room server src/server.js: one optional
mobile and one optional tv slot, identified by socket id. -/
structure SrvClients where
  mobile : Option String := none
  tv : Option String := none
deriving DecidableEq, Repr

/-- The fixed action set of the presentation_action handler of
src/server.js line 307.  The last action is spelled with an underscore in
the source. -/
def srvValidActions : List String :=
  ["play", "pause", "stop", "next", "previous", "fullscreen", "exit_fullscreen"]

/-- The membership test validActions.includes(data.action): an includes
comparison with strict equality, so only an exactly matching string value
passes. -/
def srvActionValid (v : JsVal) : Bool :=
  match v with
  | .vStr s => srvValidActions.contains s
  | _ => false

/-- The presentation_action handler of src/server.js lines 304 to 330,
which does enforce the fixed action set: an out-of-set action throws and is
reported back as INVALID_ACTION; a valid action is forwarded to the tv by
spread with a server timestamp and the sender id. -/
def srvPresentationAction (cl : SrvClients) (sid : String) (senderDevice : Option String)
    (data : List (String × JsVal)) (now : Nat) : List Ev :=
  match cl.tv with
  | some t =>
    if senderDevice = some "mobile" then
      if srvActionValid (getF data "action") then
        [Ev.emit t "presentation_action"
           (setF (setF data "timestamp" (.vNum now)) "from" (.vStr sid))]
      else
        [errEv sid "Invalid presentation action" "INVALID_ACTION"]
    else
      [errEv sid "Unauthorized or TV not connected" "UNAUTHORIZED_OR_NO_TV"]
  | none => [errEv sid "Unauthorized or TV not connected" "UNAUTHORIZED_OR_NO_TV"]

/-- A paired fixture: room ROOM1 with a connected tv t1 and a connected
mobile m1, both registered. -/
def statePaired : ServerState :=
  { socks :=
      [("t1", { connected := true, roomId := some "ROOM1", deviceType := some "tv",
                deviceName := .vStr "TV Display" }),
       ("m1", { connected := true, roomId := some "ROOM1", deviceType := some "mobile",
                deviceName := .vStr "Mobile Controller" })],
    rooms := [("ROOM1", { tv := some "t1", mobile := some "m1", createdAt := 0 })],
    stats := { totalConnections := 2, currentConnections := 2, activeRooms := 1,
               mobileConnections := 1, tvConnections := 1 } }

/-- A display-only fixture: room AAAAAA with a connected tv t1 and an empty
controller slot. -/
def stateDisplayOnly : ServerState :=
  { socks :=
      [("t1", { connected := true, roomId := some "AAAAAA", deviceType := some "tv",
                deviceName := .vStr "TV Display" })],
    rooms := [("AAAAAA", { tv := some "t1", mobile := none, createdAt := 0 })],
    stats := { totalConnections := 1, currentConnections := 1, activeRooms := 1,
               mobileConnections := 0, tvConnections := 1 } }

/-- A display-only fixture under the numeric-looking code 1234. -/
def stateNumCode : ServerState :=
  { socks :=
      [("t1", { connected := true, roomId := some "1234", deviceType := some "tv",
                deviceName := .vStr "TV Display" }),
       ("m1", { connected := true })],
    rooms := [("1234", { tv := some "t1", mobile := none, createdAt := 0 })],
    stats := { totalConnections := 2, currentConnections := 2, activeRooms := 1,
               mobileConnections := 0, tvConnections := 1 } }

/-- The all-zero random stream for the code generator. -/
def zeroDraws : Fin 6 → Fin 32 := fun _ => ⟨0, by decide⟩

/-- The room-table invariant of C7: every room present in the table has at
least one occupied slot. -/
def roomsNonEmpty (S : ServerState) : Prop :=
  ∀ p ∈ S.rooms, p.2.tv ≠ none ∨ p.2.mobile ≠ none

instance (S : ServerState) : Decidable (roomsNonEmpty S) :=
  inferInstanceAs (Decidable (∀ p ∈ S.rooms, p.2.tv ≠ none ∨ p.2.mobile ≠ none))

def evictionNotices : List String := ["replaced", "connection_timeout"]

def inL (x : String) : List String → Bool
  | [] => false
  | y :: t => if x = y then true else inL x t

def noticeThenDisc : List String → List Ev → Bool
  | _, [] => true
  | seen, .emit p nm _ :: rest =>
    noticeThenDisc (if inL nm evictionNotices then p :: seen else seen) rest
  | seen, .disconnectCmd p :: rest => inL p seen && noticeThenDisc seen rest

def noDisc (evs : List Ev) : Bool :=
  evs.all fun e => match e with | .disconnectCmd _ => false | _ => true

/-- A fixture with one registered but roomless mobile socket and an empty
room table. -/
def stateNoRooms : ServerState :=
  { socks := [("m1", { connected := true })], rooms := [], stats := {} }

/-- A trace containing at least one forced disconnect. -/
def hasDisc (evs : List Ev) : Bool :=
  evs.any fun e => match e with | .disconnectCmd _ => true | _ => false

/-- A trace containing at least one replaced (eviction) notice. -/
def hasReplacedNotice (evs : List Ev) : Bool :=
  evs.any fun e => match e with | .emit _ n _ => decide (n = "replaced") | _ => false

theorem roomIdAlphabet_char : ∀ j : Fin 32,
    roomIdAlphabet.data.getD j.val ' ' ∈ roomIdAlphabet.data ∧
    (roomIdAlphabet.data.getD j.val ' ').isAlphanum = true ∧
    roomIdAlphabet.data.getD j.val ' ' ≠ '0' ∧
    roomIdAlphabet.data.getD j.val ' ' ≠ 'O' ∧
    roomIdAlphabet.data.getD j.val ' ' ≠ '1' ∧
    roomIdAlphabet.data.getD j.val ' ' ≠ 'I' := by
  decide

/-- C8: every code produced by the generator has length within [4, 6] (it is
exactly 6) and draws every character from the alphanumeric alphabet that
excludes the confusable characters 0, O, 1 and I. -/
theorem c8_generated_code_format (r : Fin 6 → Fin 32) :
    4 ≤ (generateRoomId r).length ∧ (generateRoomId r).length ≤ 6 ∧
    ∀ c ∈ (generateRoomId r).data,
      c ∈ roomIdAlphabet.data ∧ c.isAlphanum = true ∧
      c ≠ '0' ∧ c ≠ 'O' ∧ c ≠ '1' ∧ c ≠ 'I' := by
  have hlen : (generateRoomId r).length = 6 := rfl
  refine ⟨by omega, by omega, ?_⟩
  intro c hc
  have hc' : c ∈ List.ofFn (fun i : Fin 6 => roomIdAlphabet.data.getD (r i).val ' ') := hc
  rw [List.mem_ofFn] at hc'
  obtain ⟨i, hi⟩ := hc'
  have h3 := roomIdAlphabet_char (r i)
  simp only at hi
  rw [hi] at h3
  exact h3

theorem findA_setA_self {α : Type} (l : List (String × α)) (k : String) (v : α) :
    findA (setA l k v) k = some v := by
  induction l with
  | nil => simp [setA, findA]
  | cons p t ih =>
    obtain ⟨k', w⟩ := p
    by_cases h : k' = k
    · simp [setA, findA, h]
    · simp [setA, findA, h, ih]

theorem findA_setA_ne {α : Type} (l : List (String × α)) (k k' : String) (v : α)
    (h : k ≠ k') : findA (setA l k v) k' = findA l k' := by
  induction l with
  | nil => simp [setA, findA, h]
  | cons p t ih =>
    obtain ⟨k0, w⟩ := p
    by_cases h0 : k0 = k
    · subst h0
      simp [setA, findA, h]
    · simp [setA, findA, h0, ih]

theorem setA_findA_self {α : Type} (l : List (String × α)) (k : String) (v : α)
    (h : findA l k = some v) : setA l k v = l := by
  induction l with
  | nil => simp [findA] at h
  | cons p t ih =>
    obtain ⟨k0, w⟩ := p
    by_cases h0 : k0 = k
    · subst h0
      simp [findA] at h
      simp [setA, h]
    · simp [findA, h0] at h
      simp [setA, h0, ih h]

theorem setA_setA {α : Type} (l : List (String × α)) (k : String) (v w : α) :
    setA (setA l k v) k w = setA l k w := by
  induction l with
  | nil => simp [setA]
  | cons p t ih =>
    obtain ⟨k0, u⟩ := p
    by_cases h0 : k0 = k
    · simp [setA, h0]
    · simp [setA, h0, ih]

theorem eraseA_setA {α : Type} (l : List (String × α)) (k : String) (v : α) :
    eraseA (setA l k v) k = eraseA l k := by
  induction l with
  | nil => simp [setA, eraseA]
  | cons p t ih =>
    obtain ⟨k0, u⟩ := p
    by_cases h0 : k0 = k
    · simp [setA, eraseA, h0]
    · simp [setA, eraseA, h0, ih]

theorem mem_setA {α : Type} (l : List (String × α)) (k : String) (v : α)
    (p : String × α) (h : p ∈ setA l k v) : p ∈ l ∨ p = (k, v) := by
  induction l with
  | nil => simpa [setA] using h
  | cons q t ih =>
    obtain ⟨k0, u⟩ := q
    by_cases h0 : k0 = k
    · simp [setA, h0] at h
      rcases h with h | h
      · right; exact h
      · left; simp [h]
    · simp [setA, h0] at h
      rcases h with h | h
      · left; simp [h]
      · rcases ih h with h2 | h2
        · left; simp [h2]
        · right; exact h2

theorem mem_eraseA {α : Type} (l : List (String × α)) (k : String)
    (p : String × α) (h : p ∈ eraseA l k) : p ∈ l := by
  induction l with
  | nil => simp [eraseA] at h
  | cons q t ih =>
    obtain ⟨k0, u⟩ := q
    by_cases h0 : k0 = k
    · simp [eraseA, h0] at h
      simp [h]
    · simp [eraseA, h0] at h
      rcases h with h | h
      · simp [h]
      · simp [ih h]

theorem findA_mem {α : Type} (l : List (String × α)) (k : String) (v : α)
    (h : findA l k = some v) : (k, v) ∈ l := by
  induction l with
  | nil => simp [findA] at h
  | cons q t ih =>
    obtain ⟨k0, u⟩ := q
    by_cases h0 : k0 = k
    · subst h0
      simp [findA] at h
      simp [h]
    · simp [findA, h0] at h
      simp [ih h]

theorem slotLive_ne_none (S : ServerState) (o : Option String)
    (h : slotLive S o = true) : o ≠ none := by
  cases o with
  | none => simp [slotLive] at h
  | some t => simp

theorem eraseA_findA_none {α : Type} (l : List (String × α)) (k : String)
    (h : findA l k = none) : eraseA l k = l := by
  induction l with
  | nil => simp [eraseA]
  | cons p t ih =>
    obtain ⟨k0, w⟩ := p
    by_cases h0 : k0 = k
    · subst h0; simp [findA] at h
    · simp [findA, h0] at h
      simp [eraseA, h0, ih h]

theorem cleanupRoom_rooms (S : ServerState) (rid reason : String) :
    (cleanupRoom S rid reason).1.rooms = eraseA S.rooms rid := by
  unfold cleanupRoom
  cases h : findA S.rooms rid with
  | none => exact (eraseA_findA_none _ _ h).symm
  | some rm => rfl

theorem dropPeer_rooms (S1 : ServerState) (sid reason : String) (now : Nat)
    (rid : String) (rm : Room) :
    ((dropPeerFromRoom S1 sid reason now rid rm).1.rooms = S1.rooms ∧
      (dropPeerFromRoom S1 sid reason now rid rm).2.2 = rm) ∨
    (dropPeerFromRoom S1 sid reason now rid rm).1.rooms =
      setA S1.rooms rid (dropPeerFromRoom S1 sid reason now rid rm).2.2 := by
  unfold dropPeerFromRoom
  dsimp only
  by_cases h1 : ((sockOf S1 sid).deviceType = some "tv" ∧ rm.tv = some sid)
  · simp [h1]
  · simp only [h1, if_false]
    by_cases h2 : ((sockOf S1 sid).deviceType = some "mobile" ∧ rm.mobile = some sid)
    · simp [h2]
    · simp [h1, h2]

theorem disconnectCore_inv (S1 : ServerState) (sid reason : String) (now : Nat)
    (h : roomsNonEmpty S1) : roomsNonEmpty (disconnectCore S1 sid reason now).1 := by
  unfold disconnectCore
  dsimp only
  cases hrd : (sockOf S1 sid).roomId with
  | none => exact h
  | some rid =>
    dsimp only
    cases hfm : findA S1.rooms rid with
    | none => exact h
    | some rm =>
      dsimp only
      split
      · intro p hp
        rw [cleanupRoom_rooms] at hp
        rcases dropPeer_rooms S1 sid reason now rid rm with ⟨hdp, _⟩ | hdp
        · rw [hdp] at hp
          exact h p (mem_eraseA _ _ _ hp)
        · rw [hdp, eraseA_setA] at hp
          exact h p (mem_eraseA _ _ _ hp)
      · rename_i hcl
        intro p hp
        rcases dropPeer_rooms S1 sid reason now rid rm with ⟨hdp, _⟩ | hdp <;>
          rw [hdp] at hp
        · exact h p hp
        · rcases mem_setA _ _ _ _ hp with h3 | h3
          · exact h p h3
          · subst h3
            rcases not_and_or.mp hcl with hx | hx
            · left
              exact slotLive_ne_none _ _ (by simpa using hx)
            · right
              exact slotLive_ne_none _ _ (by simpa using hx)

theorem sweepSlotMobile_spec (S : ServerState) (rm : Room) (now : Nat) :
    (sweepSlotMobile S rm now).1.rooms = S.rooms ∧
    (((sweepSlotMobile S rm now).2.2.1 = rm ∧ (sweepSlotMobile S rm now).2.2.2 = false) ∨
     ((sweepSlotMobile S rm now).2.2.1 = { rm with mobile := none } ∧
      (sweepSlotMobile S rm now).2.2.2 = !(slotLive (sweepSlotMobile S rm now).1 rm.tv))) := by
  unfold sweepSlotMobile
  cases hm : rm.mobile with
  | none => simp
  | some m =>
    by_cases hum : unhealthySock S now m = true
    · simp [hum, updateSock]
    · simp [hum]

theorem sweepSlotTv_spec (Sa : ServerState) (rmA : Room) (cleanA : Bool) (now : Nat) :
    (sweepSlotTv Sa rmA cleanA now).1.rooms = Sa.rooms ∧
    (((sweepSlotTv Sa rmA cleanA now).2.2.1 = rmA ∧
      (sweepSlotTv Sa rmA cleanA now).2.2.2 = cleanA) ∨
     ((sweepSlotTv Sa rmA cleanA now).2.2.1 = { rmA with tv := none } ∧
      (sweepSlotTv Sa rmA cleanA now).2.2.2 =
        (cleanA || !(slotLive (sweepSlotTv Sa rmA cleanA now).1 rmA.mobile)))) := by
  unfold sweepSlotTv
  cases ht : rmA.tv with
  | none => simp
  | some t =>
    by_cases hut : unhealthySock Sa now t = true
    · simp [hut, updateSock]
    · simp [hut]

theorem sweepRoom_inv (S : ServerState) (rid : String) (now : Nat)
    (h : roomsNonEmpty S) : roomsNonEmpty (sweepRoom S rid now).1 := by
  unfold sweepRoom
  cases hfm : findA S.rooms rid with
  | none => exact h
  | some rm =>
    dsimp only
    have hmem : (rid, rm) ∈ S.rooms := findA_mem _ _ _ hfm
    obtain ⟨hra, hspa⟩ := sweepSlotMobile_spec S rm now
    obtain ⟨hrb, hspb⟩ :=
      sweepSlotTv_spec (sweepSlotMobile S rm now).1 (sweepSlotMobile S rm now).2.2.1
        (sweepSlotMobile S rm now).2.2.2 now
    split
    · intro p hp
      rw [cleanupRoom_rooms] at hp
      dsimp only at hp
      rw [eraseA_setA, hrb, hra] at hp
      exact h p (mem_eraseA _ _ _ hp)
    · rename_i hcl
      intro p hp
      dsimp only at hp
      rw [hrb, hra] at hp
      rcases mem_setA _ _ _ _ hp with h3 | h3
      · exact h p h3
      · subst h3
        rw [Bool.not_eq_true] at hcl
        rcases hspb with ⟨hroom, hflag⟩ | ⟨hroom, hflag⟩
        · rw [hroom]
          rcases hspa with ⟨hroomA, hflagA⟩ | ⟨hroomA, hflagA⟩
          · rw [hroomA]
            exact h _ hmem
          · rw [hroomA]
            left
            rw [hflag, hflagA] at hcl
            have h6 : slotLive (sweepSlotMobile S rm now).1 rm.tv = true := by
              revert hcl
              cases hx : slotLive (sweepSlotMobile S rm now).1 rm.tv <;> simp
            have h5 := slotLive_ne_none _ _ h6
            simpa using h5
        · rw [hroom]
          rw [hflag] at hcl
          rcases Bool.or_eq_false_iff.mp hcl with ⟨hc1, hc2⟩
          have h4 : slotLive (sweepSlotTv (sweepSlotMobile S rm now).1
              (sweepSlotMobile S rm now).2.2.1 (sweepSlotMobile S rm now).2.2.2 now).1
              (sweepSlotMobile S rm now).2.2.1.mobile = true := by
            revert hc2
            cases hx : slotLive _ _ <;> simp
          have h5 := slotLive_ne_none _ _ h4
          rcases hspa with ⟨hroomA, hflagA⟩ | ⟨hroomA, hflagA⟩
          · right
            rw [hroomA] at h5 ⊢
            simpa using h5
          · exfalso
            rw [hroomA] at h4
            simp [slotLive] at h4

theorem registerTv_rooms (S : ServerState) (sid : String) (data : List (String × JsVal))
    (r : Fin 6 → Fin 32) (now : Nat) :
    ∃ rm2 : Room, rm2.tv = some sid ∧
      (registerTv S sid data r now).1.rooms = setA S.rooms (resolveRoomId data r) rm2 := by
  unfold registerTv
  cases hr : findA S.rooms (resolveRoomId data r) with
  | none =>
    refine ⟨{ tv := some sid, mobile := none, createdAt := now }, rfl, ?_⟩
    simp [hr, findA_setA_self, setA_setA, updateSock]
  | some rm =>
    cases htv : rm.tv with
    | none =>
      refine ⟨{ rm with tv := some sid }, rfl, ?_⟩
      simp [hr, htv, updateSock]
    | some t =>
      by_cases hc : ((sockOf S t).connected = true ∧ t ≠ sid)
      · refine ⟨{ rm with tv := some sid }, rfl, ?_⟩
        simp [hr, htv, hc, updateSock]
      · refine ⟨{ rm with tv := some sid }, rfl, ?_⟩
        simp [hr, htv, hc, updateSock]

theorem registerMobile_rooms (S : ServerState) (sid : String) (data : List (String × JsVal))
    (now : Nat) :
    (registerMobile S sid data now).1.rooms = S.rooms ∨
    ∃ key rm2, rm2.mobile = some sid ∧
      (registerMobile S sid data now).1.rooms = setA S.rooms key rm2 := by
  unfold registerMobile
  by_cases h1 : (getF data "roomId").truthy = false
  · simp [h1]
  · simp only [h1, if_false]
    by_cases h2 : validateRoomId ((getF data "roomId").toStr) = false
    · simp [h2]
    · simp only [h2, if_false]
      cases h3 : findA S.rooms ((getF data "roomId").toStr) with
      | none => left; rfl
      | some rm =>
        simp only [h3]
        cases h4 : rm.tv with
        | none => left; rfl
        | some t =>
          by_cases h5 : (sockOf S t).connected = false
          · simp [h5]
          · simp only [h5, if_false]
            right
            refine ⟨(getF data "roomId").toStr, { rm with mobile := some sid }, rfl, ?_⟩
            cases h6 : rm.mobile with
            | none => simp [h6, h4, updateSock]
            | some m =>
              by_cases h7 : ((sockOf S m).connected = true ∧ m ≠ sid)
              · simp [h6, h7, h4, updateSock]
              · simp [h6, h7, h4, updateSock]

theorem registerTv_inv (S : ServerState) (sid : String) (data : List (String × JsVal))
    (r : Fin 6 → Fin 32) (now : Nat) (h : roomsNonEmpty S) :
    roomsNonEmpty (registerTv S sid data r now).1 := by
  obtain ⟨rm2, h2, hrooms⟩ := registerTv_rooms S sid data r now
  intro p hp
  rw [hrooms] at hp
  rcases mem_setA _ _ _ _ hp with h3 | h3
  · exact h p h3
  · subst h3
    left
    simp [h2]

theorem registerMobile_inv (S : ServerState) (sid : String) (data : List (String × JsVal))
    (now : Nat) (h : roomsNonEmpty S) :
    roomsNonEmpty (registerMobile S sid data now).1 := by
  rcases registerMobile_rooms S sid data now with hr | ⟨key, rm2, h2, hr⟩
  · intro p hp
    rw [hr] at hp
    exact h p hp
  · intro p hp
    rw [hr] at hp
    rcases mem_setA _ _ _ _ hp with h3 | h3
    · exact h p h3
    · subst h3
      right
      simp [h2]

theorem cleanupRoom_inv (S : ServerState) (rid reason : String) (h : roomsNonEmpty S) :
    roomsNonEmpty (cleanupRoom S rid reason).1 := by
  intro p hp
  rw [cleanupRoom_rooms] at hp
  exact h p (mem_eraseA _ _ _ hp)

theorem unhealthySweep_inv (S : ServerState) (now : Nat) (h : roomsNonEmpty S) :
    roomsNonEmpty (unhealthySweep S now).1 := by
  unfold unhealthySweep
  have hgen : ∀ (keys : List String) (init : ServerState × List Ev), roomsNonEmpty init.1 →
      roomsNonEmpty ((keys.foldl (fun acc rid =>
        let st := sweepRoom acc.1 rid now
        (st.1, acc.2 ++ st.2)) init)).1 := by
    intro keys
    induction keys with
    | nil => intro init h0; exact h0
    | cons k t ih =>
      intro init h0
      exact ih _ (sweepRoom_inv _ _ _ h0)
  exact hgen _ (S, []) h

theorem expirySweep_inv (S : ServerState) (now : Nat) (h : roomsNonEmpty S) :
    roomsNonEmpty (expirySweep S now).1 := by
  unfold expirySweep
  have hgen : ∀ (keys : List String) (init : ServerState × List Ev), roomsNonEmpty init.1 →
      roomsNonEmpty ((keys.foldl (fun acc rid =>
        let st := cleanupRoom acc.1 rid "expired"
        (st.1, acc.2 ++ st.2)) init)).1 := by
    intro keys
    induction keys with
    | nil => intro init h0; exact h0
    | cons k t ih =>
      intro init h0
      exact ih _ (cleanupRoom_inv _ _ _ h0)
  exact hgen _ (S, []) h

theorem slideChange_state (S : ServerState) (sid : String) (data : List (String × JsVal))
    (now : Nat) : (slideChange S sid data now).1 = S := by
  unfold slideChange
  dsimp only
  repeat' first | rfl | split

theorem pdfScroll_state (S : ServerState) (sid : String) (data : List (String × JsVal))
    (now : Nat) : (pdfScroll S sid data now).1 = S := by
  unfold pdfScroll
  dsimp only
  repeat' first | rfl | split

theorem pdfPageChange_state (S : ServerState) (sid : String) (data : List (String × JsVal))
    (now : Nat) : (pdfPageChange S sid data now).1 = S := by
  unfold pdfPageChange
  dsimp only
  repeat' first | rfl | split

theorem presentationAction_state (S : ServerState) (sid : String)
    (data : List (String × JsVal)) (now : Nat) :
    (presentationAction S sid data now).1 = S := by
  unfold presentationAction
  dsimp only
  repeat' first | rfl | split

theorem loadDocument_state (S : ServerState) (sid : String) (data : List (String × JsVal))
    (now : Nat) : (loadDocument S sid data now).1 = S := by
  unfold loadDocument
  dsimp only
  repeat' first | rfl | split

theorem customEvent_state (S : ServerState) (sid : String) (data : List (String × JsVal))
    (now : Nat) : (customEvent S sid data now).1 = S := by
  unfold customEvent
  dsimp only
  repeat' first | rfl | split

/-- C7: every complete operation of the room server core (registration,
relay, ping or pong, disconnect handling, any sweep) preserves the invariant
that every room present in the table has at least one occupied slot;
equivalently, a room whose two slots are both empty never survives the
operation that emptied it. -/
theorem c7_room_invariant (S : ServerState) (o : Op) (now : Nat)
    (h : roomsNonEmpty S) : roomsNonEmpty (step S o now).1 := by
  cases o with
  | opRegisterTv sid data r => exact registerTv_inv S sid data r now h
  | opRegisterMobile sid data => exact registerMobile_inv S sid data now h
  | opSlideChange sid data =>
    show roomsNonEmpty (slideChange S sid data now).1
    rw [slideChange_state]; exact h
  | opPdfScroll sid data =>
    show roomsNonEmpty (pdfScroll S sid data now).1
    rw [pdfScroll_state]; exact h
  | opPdfPageChange sid data =>
    show roomsNonEmpty (pdfPageChange S sid data now).1
    rw [pdfPageChange_state]; exact h
  | opPresentationAction sid data =>
    show roomsNonEmpty (presentationAction S sid data now).1
    rw [presentationAction_state]; exact h
  | opLoadDocument sid data =>
    show roomsNonEmpty (loadDocument S sid data now).1
    rw [loadDocument_state]; exact h
  | opCustomEvent sid data =>
    show roomsNonEmpty (customEvent S sid data now).1
    rw [customEvent_state]; exact h
  | opPing sid => exact h
  | opPong sid => exact h
  | opDisconnect sid reason => exact disconnectCore_inv _ sid reason now h
  | opHealthSweep => exact h
  | opUnhealthySweep => exact unhealthySweep_inv S now h
  | opExpirySweep => exact expirySweep_inv S now h

/-- C7 witness: the invariant holds of the paired fixture and survives
the disconnect of its controller. -/
theorem c7_room_invariant_witness :
    roomsNonEmpty statePaired ∧
      roomsNonEmpty (step statePaired (Op.opDisconnect "m1" "transport close") 5).1 := by
  refine ⟨by decide, ?_⟩
  exact c7_room_invariant statePaired (Op.opDisconnect "m1" "transport close") 5 (by decide)

theorem ntd_no_disc (evs : List Ev) : ∀ seen : List String,
    noDisc evs = true → noticeThenDisc seen evs = true := by
  induction evs with
  | nil => intro seen _; rfl
  | cons e t ih =>
    intro seen h
    cases e with
    | emit p nm pl =>
      simp only [noDisc, List.all_cons, Bool.and_eq_true] at h
      exact ih _ h.2
    | disconnectCmd p =>
      simp [noDisc] at h

theorem ntd_append (xs : List Ev) : ∀ (ys : List Ev) (seen : List String),
    noticeThenDisc seen xs = true → (∀ s, noticeThenDisc s ys = true) →
    noticeThenDisc seen (xs ++ ys) = true := by
  induction xs with
  | nil => intro ys seen _ h2; exact h2 seen
  | cons e t ih =>
    intro ys seen h1 h2
    cases e with
    | emit p nm pl =>
      simp only [noticeThenDisc, List.cons_append] at h1 ⊢
      exact ih ys _ h1 h2
    | disconnectCmd p =>
      simp only [noticeThenDisc, List.cons_append, Bool.and_eq_true] at h1 ⊢
      exact ⟨h1.1, ih ys _ h1.2 h2⟩

theorem registerTv_ntd (S : ServerState) (sid : String) (data : List (String × JsVal))
    (r : Fin 6 → Fin 32) (now : Nat) (seen : List String) :
    noticeThenDisc seen (registerTv S sid data r now).2 = true := by
  unfold registerTv
  dsimp only
  cases hr : findA S.rooms (resolveRoomId data r) with
  | none =>
    apply ntd_no_disc
    simp [hr, findA_setA_self, noDisc]
  | some rm =>
    cases htv : rm.tv with
    | none =>
      apply ntd_no_disc
      simp only [htv]
      try dsimp only
      try simp only [hr, Option.isNone_some, Bool.false_eq_true, if_false, ite_false,
        Option.getD_some]
      try dsimp only
      cases hm : rm.mobile
      · rfl
      · dsimp only
        repeat' first | rfl | split
    | some t =>
      simp only [htv]
      by_cases hc : ((sockOf S t).connected = true ∧ t ≠ sid)
      · rw [if_pos hc]
        try dsimp only
        try simp only [updateSock]
        try simp only [hr, Option.isNone_some, Bool.false_eq_true, if_false, ite_false,
          Option.getD_some]
        try dsimp only
        apply ntd_append
        · simp [noticeThenDisc, inL, evictionNotices]
        · intro s
          apply ntd_no_disc
          try dsimp only
          cases hm : rm.mobile
          · rfl
          · dsimp only
            repeat' first | rfl | split
      · rw [if_neg hc]
        try dsimp only
        try simp only [hr, Option.isNone_some, Bool.false_eq_true, if_false, ite_false,
          Option.getD_some]
        apply ntd_no_disc
        dsimp only
        cases hm : rm.mobile
        · rfl
        · dsimp only
          repeat' first | rfl | split

theorem cleanupRoom_noDisc (S : ServerState) (rid reason : String) :
    noDisc (cleanupRoom S rid reason).2 = true := by
  unfold cleanupRoom
  cases h : findA S.rooms rid with
  | none => rfl
  | some rm =>
    dsimp only
    cases h1 : rm.tv <;> cases h2 : rm.mobile <;> dsimp only <;> repeat' first | rfl | split

theorem registerMobile_ntd (S : ServerState) (sid : String) (data : List (String × JsVal))
    (now : Nat) (seen : List String) :
    noticeThenDisc seen (registerMobile S sid data now).2 = true := by
  unfold registerMobile
  by_cases h1 : (getF data "roomId").truthy = false
  · rw [if_pos h1]; rfl
  · rw [if_neg h1]
    by_cases h2 : validateRoomId ((getF data "roomId").toStr) = false
    · rw [if_pos h2]; rfl
    · rw [if_neg h2]
      cases h3 : findA S.rooms ((getF data "roomId").toStr) with
      | none => rfl
      | some rm =>
        dsimp only
        cases h4 : rm.tv with
        | none => rfl
        | some t =>
          dsimp only
          by_cases h5 : (sockOf S t).connected = false
          · rw [if_pos h5]; rfl
          · rw [if_neg h5]
            dsimp only
            cases h6 : rm.mobile with
            | none => rfl
            | some m =>
              dsimp only
              by_cases h7 : ((sockOf S m).connected = true ∧ m ≠ sid)
              · rw [if_pos h7]
                dsimp only
                apply ntd_append
                · simp [noticeThenDisc, inL, evictionNotices]
                · intro s; rfl
              · rw [if_neg h7]; rfl

theorem sweepSlotMobile_ntd (S : ServerState) (rm : Room) (now : Nat) (seen : List String) :
    noticeThenDisc seen (sweepSlotMobile S rm now).2.1 = true := by
  unfold sweepSlotMobile
  cases hm : rm.mobile with
  | none => rfl
  | some m =>
    dsimp only
    by_cases hum : unhealthySock S now m = true
    · rw [if_pos hum]
      dsimp only
      by_cases hcon : (sockOf S m).connected = true
      · rw [if_pos hcon]
        simp [noticeThenDisc, inL, evictionNotices]
      · rw [if_neg hcon]
        rfl
    · rw [if_neg hum]
      rfl

theorem sweepSlotTv_ntd (Sa : ServerState) (rmA : Room) (cleanA : Bool) (now : Nat)
    (seen : List String) :
    noticeThenDisc seen (sweepSlotTv Sa rmA cleanA now).2.1 = true := by
  unfold sweepSlotTv
  cases ht : rmA.tv with
  | none => rfl
  | some t =>
    dsimp only
    by_cases hut : unhealthySock Sa now t = true
    · rw [if_pos hut]
      dsimp only
      by_cases hcon : (sockOf Sa t).connected = true
      · rw [if_pos hcon]
        simp [noticeThenDisc, inL, evictionNotices]
      · rw [if_neg hcon]
        rfl
    · rw [if_neg hut]
      rfl

theorem sweepRoom_ntd (S : ServerState) (rid : String) (now : Nat) (seen : List String) :
    noticeThenDisc seen (sweepRoom S rid now).2 = true := by
  unfold sweepRoom
  cases hfm : findA S.rooms rid with
  | none => rfl
  | some rm =>
    dsimp only
    split
    · apply ntd_append
      · apply ntd_append
        · exact sweepSlotMobile_ntd S rm now seen
        · intro s
          exact sweepSlotTv_ntd _ _ _ now s
      · intro s
        exact ntd_no_disc _ s (cleanupRoom_noDisc _ _ _)
    · apply ntd_append
      · exact sweepSlotMobile_ntd S rm now seen
      · intro s
        exact sweepSlotTv_ntd _ _ _ now s

theorem unhealthySweep_ntd (S : ServerState) (now : Nat) (seen : List String) :
    noticeThenDisc seen (unhealthySweep S now).2 = true := by
  unfold unhealthySweep
  have hgen : ∀ (keys : List String) (init : ServerState × List Ev),
      (∀ s, noticeThenDisc s init.2 = true) →
      ∀ s, noticeThenDisc s ((keys.foldl (fun acc rid =>
        let st := sweepRoom acc.1 rid now
        (st.1, acc.2 ++ st.2)) init)).2 = true := by
    intro keys
    induction keys with
    | nil => intro init h s; exact h s
    | cons k t ih =>
      intro init h s
      apply ih
      intro s2
      exact ntd_append _ _ _ (h s2) (fun s3 => sweepRoom_ntd _ _ _ s3)
  exact hgen _ (S, []) (fun s => rfl) seen

theorem expirySweep_ntd (S : ServerState) (now : Nat) (seen : List String) :
    noticeThenDisc seen (expirySweep S now).2 = true := by
  unfold expirySweep
  have hgen : ∀ (keys : List String) (init : ServerState × List Ev),
      (∀ s, noticeThenDisc s init.2 = true) →
      ∀ s, noticeThenDisc s ((keys.foldl (fun acc rid =>
        let st := cleanupRoom acc.1 rid "expired"
        (st.1, acc.2 ++ st.2)) init)).2 = true := by
    intro keys
    induction keys with
    | nil => intro init h s; exact h s
    | cons k t ih =>
      intro init h s
      apply ih
      intro s2
      exact ntd_append _ _ _ (h s2) (fun s3 => ntd_no_disc _ s3 (cleanupRoom_noDisc _ _ _))
  exact hgen _ (S, []) (fun s => rfl) seen

/-- C6: in every eviction path of the room server (display registration
takeover, controller registration takeover, and the liveness eviction
sweep; the expiry sweep never disconnects), a forced disconnect of a peer
is always preceded, in the same emitted trace, by an eviction notice
(replaced or connection_timeout) to that same peer. -/
theorem c6_eviction_notice_order :
    (∀ (S : ServerState) (sid : String) (data : List (String × JsVal))
        (r : Fin 6 → Fin 32) (now : Nat),
      noticeThenDisc [] (registerTv S sid data r now).2 = true) ∧
    (∀ (S : ServerState) (sid : String) (data : List (String × JsVal)) (now : Nat),
      noticeThenDisc [] (registerMobile S sid data now).2 = true) ∧
    (∀ (S : ServerState) (now : Nat),
      noticeThenDisc [] (unhealthySweep S now).2 = true) ∧
    (∀ (S : ServerState) (now : Nat),
      noticeThenDisc [] (expirySweep S now).2 = true) :=
  ⟨fun S sid data r now => registerTv_ntd S sid data r now [],
   fun S sid data now => registerMobile_ntd S sid data now [],
   fun S now => unhealthySweep_ntd S now [],
   fun S now => expirySweep_ntd S now []⟩

/-- C1 counterexample: the action string bogus lies outside the fixed action
set, yet the room-based server forwards it to the display instead of
rejecting it; the hyphen spelling exit-fullscreen of the claim is also not
in the enforced set of the single-room server. -/
theorem c1_fixed_action_set_counterexample :
    srvActionValid (JsVal.vStr "bogus") = false ∧
    srvActionValid (JsVal.vStr "exit-fullscreen") = false ∧
    (presentationAction statePaired "m1" [("action", JsVal.vStr "bogus")] 7).2 =
      [Ev.emit "t1" "presentation_action"
        [("action", JsVal.vStr "bogus"), ("params", JsVal.vObj 0),
         ("roomId", JsVal.vStr "ROOM1"), ("timestamp", JsVal.vNum 7),
         ("from", JsVal.vStr "m1")]] := by
  decide

/-- C1 (amended): in the room-based server a presentation-action from a
registered controller with a live display is forwarded whenever the action
is truthy (no fixed-set check); a falsy action gets MISSING_ACTION and is
not forwarded.  Only the single-room server enforces the fixed action set,
rejecting an out-of-set action with INVALID_ACTION without forwarding. -/
theorem c1_presentation_action_amended
    (S : ServerState) (sid rid t : String) (rm : Room)
    (data : List (String × JsVal)) (now : Nat)
    (hdev : (sockOf S sid).deviceType = some "mobile")
    (hrid : (sockOf S sid).roomId = some rid)
    (hrm : findA S.rooms rid = some rm)
    (htv : rm.tv = some t)
    (hlive : (sockOf S t).connected = true) :
    ((getF data "action").truthy = true →
      (presentationAction S sid data now).2 =
        [Ev.emit t "presentation_action"
          [("action", getF data "action"),
           ("params", if (getF data "params").truthy = true then getF data "params"
                      else JsVal.vObj 0),
           ("roomId", JsVal.vStr rid), ("timestamp", JsVal.vNum now),
           ("from", JsVal.vStr sid)]]) ∧
    ((getF data "action").truthy = false →
      (presentationAction S sid data now).2 =
        [errEv sid "Action is required" "MISSING_ACTION"]) ∧
    (∀ (cl : SrvClients) (t2 : String), cl.tv = some t2 →
      (srvActionValid (getF data "action") = true →
        srvPresentationAction cl sid (some "mobile") data now =
          [Ev.emit t2 "presentation_action"
            (setF (setF data "timestamp" (JsVal.vNum now)) "from" (JsVal.vStr sid))]) ∧
      (srvActionValid (getF data "action") = false →
        srvPresentationAction cl sid (some "mobile") data now =
          [errEv sid "Invalid presentation action" "INVALID_ACTION"])) := by
  refine ⟨?_, ?_, ?_⟩
  · intro ha
    unfold presentationAction
    simp [hdev, hrid, hrm, htv, slotLive, hlive, ha]
  · intro ha
    unfold presentationAction
    simp [hdev, hrid, hrm, htv, slotLive, hlive, ha]
  · intro cl t2 hcl
    constructor <;> intro hv <;> unfold srvPresentationAction <;> simp [hcl, hv]

/-- C1 witness: a play action from the paired fixture is forwarded to the
display with the server stamp. -/
theorem c1_presentation_action_amended_witness :
    (presentationAction statePaired "m1" [("action", JsVal.vStr "play")] 3).2 =
      [Ev.emit "t1" "presentation_action"
        [("action", JsVal.vStr "play"), ("params", JsVal.vObj 0),
         ("roomId", JsVal.vStr "ROOM1"), ("timestamp", JsVal.vNum 3),
         ("from", JsVal.vStr "m1")]] := by
  have h := (c1_presentation_action_amended statePaired "m1" "ROOM1" "t1"
    { tv := some "t1", mobile := some "m1", createdAt := 0 }
    [("action", JsVal.vStr "play")] 3 rfl rfl rfl rfl rfl).1 rfl
  simpa using h

/-- C2 counterexample: the code ab names no room, yet register_mobile
rejects it with INVALID_ROOM_ID, not with the MissingRoom error the claim
requires. -/
theorem c2_missing_room_counterexample :
    findA stateNoRooms.rooms "ab" = none ∧
    (registerMobile stateNoRooms "m1" [("roomId", JsVal.vStr "ab")] 3).2 =
      [errEv "m1" "Invalid room ID format" "INVALID_ROOM_ID"] ∧
    errEv "m1" "Invalid room ID format" "INVALID_ROOM_ID" ≠
      errEvRoom "m1"
        "Room not found. Make sure the TV is connected and displaying the correct room code."
        "ROOM_NOT_FOUND" "ab" := by
  decide

/-- C2 (amended): register_mobile fails with ROOM_ID_REQUIRED on a falsy
code and INVALID_ROOM_ID on a malformed one before any lookup; for a
well-formed code it fails with ROOM_NOT_FOUND when no room exists and with
NO_TV_IN_ROOM when the display slot is empty or dead, and every failure
returns the server state unchanged. -/
theorem c2_register_controller_amended
    (S : ServerState) (sid : String) (data : List (String × JsVal)) (now : Nat) :
    ((getF data "roomId").truthy = false →
      registerMobile S sid data now =
        (S, [errEv sid "Room ID is required for mobile registration" "ROOM_ID_REQUIRED"])) ∧
    ((getF data "roomId").truthy = true →
      validateRoomId ((getF data "roomId").toStr) = false →
      registerMobile S sid data now =
        (S, [errEv sid "Invalid room ID format" "INVALID_ROOM_ID"])) ∧
    ((getF data "roomId").truthy = true →
      validateRoomId ((getF data "roomId").toStr) = true →
      findA S.rooms ((getF data "roomId").toStr) = none →
      registerMobile S sid data now =
        (S, [errEvRoom sid
          "Room not found. Make sure the TV is connected and displaying the correct room code."
          "ROOM_NOT_FOUND" ((getF data "roomId").toStr)])) ∧
    (∀ rm, (getF data "roomId").truthy = true →
      validateRoomId ((getF data "roomId").toStr) = true →
      findA S.rooms ((getF data "roomId").toStr) = some rm →
      slotLive S rm.tv = false →
      registerMobile S sid data now =
        (S, [errEvRoom sid
          "No TV connected in this room. Please make sure the TV is online."
          "NO_TV_IN_ROOM" ((getF data "roomId").toStr)])) := by
  refine ⟨?_, ?_, ?_, ?_⟩
  · intro h1
    unfold registerMobile
    rw [if_pos h1]
  · intro h1 h2
    unfold registerMobile
    rw [if_neg (by simp [h1]), if_pos h2]
  · intro h1 h2 h3
    unfold registerMobile
    rw [if_neg (by simp [h1]), if_neg (by simp [h2]), h3]
  · intro rm h1 h2 h3 h4
    unfold registerMobile
    rw [if_neg (by simp [h1]), if_neg (by simp [h2]), h3]
    dsimp only
    cases htv : rm.tv with
    | none => rfl
    | some t =>
      dsimp only
      have h5 : (sockOf S t).connected = false := by
        rw [htv] at h4
        simpa [slotLive] using h4
      rw [if_pos h5]

/-- C2 witness: a well-formed unknown code yields ROOM_NOT_FOUND with the
state unchanged. -/
theorem c2_register_controller_amended_witness :
    registerMobile stateNoRooms "m1" [("roomId", JsVal.vStr "NOPE9")] 4 =
      (stateNoRooms, [errEvRoom "m1"
        "Room not found. Make sure the TV is connected and displaying the correct room code."
        "ROOM_NOT_FOUND" "NOPE9"]) := by
  have h := (c2_register_controller_amended stateNoRooms "m1"
    [("roomId", JsVal.vStr "NOPE9")] 4).2.2.1 rfl rfl rfl
  simpa using h

theorem validateRoomId_generateRoomId (r : Fin 6 → Fin 32) :
    validateRoomId (generateRoomId r) = true := by
  have h : (generateRoomId r).length = 6 := rfl
  simp [validateRoomId, h]

theorem resolveRoomId_gen (data : List (String × JsVal)) (r : Fin 6 → Fin 32)
    (h : (getF data "roomId").truthy = false ∨
      validateRoomId ((getF data "roomId").toStr) = false) :
    resolveRoomId data r = generateRoomId r := by
  by_cases ht : (getF data "roomId").truthy = true
  · have hv : validateRoomId ((getF data "roomId").toStr) = false := by
      rcases h with h | h
      · rw [ht] at h; cases h
      · exact h
    simp [resolveRoomId, ht, hv]
  · simp only [Bool.not_eq_true] at ht
    simp [resolveRoomId, ht, validateRoomId_generateRoomId]

theorem registerTv_ack (S : ServerState) (sid : String) (data : List (String × JsVal))
    (r : Fin 6 → Fin 32) (now : Nat) :
    Ev.emit sid "registered"
      [("deviceType", JsVal.vStr "tv"), ("roomId", JsVal.vStr (resolveRoomId data r)),
       ("clientId", JsVal.vStr sid), ("timestamp", JsVal.vNum now),
       ("message", JsVal.vStr "TV registered successfully")]
      ∈ (registerTv S sid data r now).2 := by
  unfold registerTv
  dsimp only
  cases hr : findA S.rooms (resolveRoomId data r) with
  | none => simp [List.mem_append]
  | some rm =>
    cases htv : rm.tv with
    | none => simp [List.mem_append]
    | some t =>
      simp only [htv]
      try dsimp only
      by_cases hc : ((sockOf S t).connected = true ∧ t ≠ sid)
      · rw [if_pos hc]
        simp [List.mem_append]
      · rw [if_neg hc]
        simp [List.mem_append]

/-- C3 counterexample: with the all-zero random stream the generator
produces AAAAAA, equal to the code of a room already in the table, and the
registration proceeds to claim that room, evicting its display; the
generated code is not unique. -/
theorem c3_unique_code_counterexample :
    resolveRoomId [] zeroDraws = "AAAAAA" ∧
    findA stateDisplayOnly.rooms "AAAAAA" =
      some { tv := some "t1", mobile := none, createdAt := 0 } ∧
    (registerTv stateDisplayOnly "t2" [] zeroDraws 4).2 =
      [Ev.emit "t1" "replaced"
         [("message", JsVal.vStr "New TV connected to this room"),
          ("timestamp", JsVal.vNum 4)],
       Ev.disconnectCmd "t1",
       Ev.emit "t2" "registered"
         [("deviceType", JsVal.vStr "tv"), ("roomId", JsVal.vStr "AAAAAA"),
          ("clientId", JsVal.vStr "t2"), ("timestamp", JsVal.vNum 4),
          ("message", JsVal.vStr "TV registered successfully")]] := by
  decide

/-- C3 (amended): when the supplied code is falsy or malformed,
register_tv resolves the code to a plain generator draw, for every room
table alike (the resolution function takes no table argument), so no
uniqueness against existing rooms is guaranteed. -/
theorem c3_generated_code_amended (S : ServerState) (sid : String)
    (data : List (String × JsVal)) (r : Fin 6 → Fin 32) (now : Nat)
    (h : (getF data "roomId").truthy = false ∨
      validateRoomId ((getF data "roomId").toStr) = false) :
    resolveRoomId data r = generateRoomId r ∧
    Ev.emit sid "registered"
      [("deviceType", JsVal.vStr "tv"), ("roomId", JsVal.vStr (generateRoomId r)),
       ("clientId", JsVal.vStr sid), ("timestamp", JsVal.vNum now),
       ("message", JsVal.vStr "TV registered successfully")]
      ∈ (registerTv S sid data r now).2 := by
  have he := resolveRoomId_gen data r h
  refine ⟨he, ?_⟩
  rw [← he]
  exact registerTv_ack S sid data r now

/-- C3 witness: the display-only fixture acknowledges registration under
the freshly drawn code. -/
theorem c3_generated_code_amended_witness :
    resolveRoomId [] zeroDraws = generateRoomId zeroDraws ∧
    Ev.emit "t2" "registered"
      [("deviceType", JsVal.vStr "tv"), ("roomId", JsVal.vStr (generateRoomId zeroDraws)),
       ("clientId", JsVal.vStr "t2"), ("timestamp", JsVal.vNum 4),
       ("message", JsVal.vStr "TV registered successfully")]
      ∈ (registerTv stateDisplayOnly "t2" [] zeroDraws 4).2 :=
  c3_generated_code_amended stateDisplayOnly "t2" [] zeroDraws 4 (Or.inl rfl)

/-- C4 counterexample: an accepted document-scroll carrying pageNumber 0
is delivered with pageNumber 1: a sender-supplied field value altered in
transit. -/
theorem c4_field_unaltered_counterexample :
    (pdfScroll statePaired "m1"
        [("scrollOffset", JsVal.vNum 5), ("pageNumber", JsVal.vNum 0)] 7).2 =
      [Ev.emit "t1" "pdf_scroll"
        [("scrollOffset", JsVal.vNum 5), ("pageNumber", JsVal.vNum 1),
         ("roomId", JsVal.vStr "ROOM1"), ("timestamp", JsVal.vNum 7),
         ("from", JsVal.vStr "m1")]] ∧
    getF [("scrollOffset", JsVal.vNum 5), ("pageNumber", JsVal.vNum 0)] "pageNumber" =
      JsVal.vNum 0 ∧
    JsVal.vNum (0 : Int) ≠ JsVal.vNum 1 := by
  decide

/-- C4 (amended): each of the five typed kinds accepted from a paired
controller is delivered to the display with the server timestamp and the
sender identity attached, the validated field values unaltered, and the
optional fields pageNumber, params and metadata delivered unaltered when
truthy but replaced by their defaults (1 or the empty object) when falsy or
absent. -/
theorem c4_relay_stamping_amended
    (S : ServerState) (sid rid t : String) (rm : Room) (now : Nat)
    (hdev : (sockOf S sid).deviceType = some "mobile")
    (hrid : (sockOf S sid).roomId = some rid)
    (hrm : findA S.rooms rid = some rm)
    (htv : rm.tv = some t)
    (hlive : (sockOf S t).connected = true) :
    (∀ (data : List (String × JsVal)) (i : Int),
      getF data "slideIndex" = JsVal.vNum i → 0 ≤ i →
      (slideChange S sid data now).2 =
        [Ev.emit t "slide_change"
           [("slideIndex", JsVal.vNum i), ("roomId", JsVal.vStr rid),
            ("timestamp", JsVal.vNum now), ("from", JsVal.vStr sid)],
         Ev.emit sid "slide_change_ack"
           [("slideIndex", JsVal.vNum i), ("timestamp", JsVal.vNum now)]]) ∧
    (∀ data : List (String × JsVal), (getF data "scrollOffset").isNumber = true →
      (pdfScroll S sid data now).2 =
        [Ev.emit t "pdf_scroll"
           [("scrollOffset", getF data "scrollOffset"),
            ("pageNumber", if (getF data "pageNumber").truthy = true
                           then getF data "pageNumber" else JsVal.vNum 1),
            ("roomId", JsVal.vStr rid), ("timestamp", JsVal.vNum now),
            ("from", JsVal.vStr sid)]]) ∧
    (∀ (data : List (String × JsVal)) (p : Int),
      getF data "pageNumber" = JsVal.vNum p → 1 ≤ p →
      (pdfPageChange S sid data now).2 =
        [Ev.emit t "pdf_page_change"
           [("pageNumber", JsVal.vNum p), ("roomId", JsVal.vStr rid),
            ("timestamp", JsVal.vNum now), ("from", JsVal.vStr sid)]]) ∧
    (∀ data : List (String × JsVal), (getF data "action").truthy = true →
      (presentationAction S sid data now).2 =
        [Ev.emit t "presentation_action"
           [("action", getF data "action"),
            ("params", if (getF data "params").truthy = true then getF data "params"
                       else JsVal.vObj 0),
            ("roomId", JsVal.vStr rid), ("timestamp", JsVal.vNum now),
            ("from", JsVal.vStr sid)]]) ∧
    (∀ data : List (String × JsVal),
      (getF data "documentType").truthy = true → (getF data "documentUrl").truthy = true →
      (loadDocument S sid data now).2 =
        [Ev.emit t "load_document"
           [("documentType", getF data "documentType"),
            ("documentUrl", getF data "documentUrl"),
            ("metadata", if (getF data "metadata").truthy = true then getF data "metadata"
                         else JsVal.vObj 0),
            ("roomId", JsVal.vStr rid), ("timestamp", JsVal.vNum now),
            ("from", JsVal.vStr sid)]]) := by
  refine ⟨?_, ?_, ?_, ?_, ?_⟩
  · intro data i hv hge
    unfold slideChange
    simp [hdev, hrid, hrm, htv, slotLive, hlive, hv, not_lt.mpr hge]
  · intro data hv
    unfold pdfScroll
    simp [hdev, hrid, hrm, htv, slotLive, hlive, hv]
  · intro data p hv hge
    unfold pdfPageChange
    simp [hdev, hrid, hrm, htv, slotLive, hlive, hv, not_lt.mpr hge]
  · intro data ha
    unfold presentationAction
    simp [hdev, hrid, hrm, htv, slotLive, hlive, ha]
  · intro data h1 h2
    unfold loadDocument
    simp [hdev, hrid, hrm, htv, slotLive, hlive, h1, h2]

/-- C4 witness: a slide change with index 3 is delivered intact with the
server stamp and acknowledged to the sender. -/
theorem c4_relay_stamping_amended_witness :
    (slideChange statePaired "m1" [("slideIndex", JsVal.vNum 3)] 5).2 =
      [Ev.emit "t1" "slide_change"
         [("slideIndex", JsVal.vNum 3), ("roomId", JsVal.vStr "ROOM1"),
          ("timestamp", JsVal.vNum 5), ("from", JsVal.vStr "m1")],
       Ev.emit "m1" "slide_change_ack"
         [("slideIndex", JsVal.vNum 3), ("timestamp", JsVal.vNum 5)]] := by
  exact (c4_relay_stamping_amended statePaired "m1" "ROOM1" "t1"
    { tv := some "t1", mobile := some "m1", createdAt := 0 } 5
    rfl rfl rfl rfl rfl).1 [("slideIndex", JsVal.vNum 3)] 3 rfl (by decide)

theorem resolveRoomId_valid (data : List (String × JsVal)) (r : Fin 6 → Fin 32)
    (ht : (getF data "roomId").truthy = true)
    (hv : validateRoomId ((getF data "roomId").toStr) = true) :
    resolveRoomId data r = (getF data "roomId").toStr := by
  simp [resolveRoomId, ht, hv]

/-- C5: registering a display into a room whose display slot is occupied
by a live peer is an idempotent refresh when the caller is that same peer
(no replaced notice, no disconnect, slot kept) and an eviction when the ids
differ (replaced notice and forced disconnect to the incumbent, slot taken
by the caller). -/
theorem c5_display_slot_takeover
    (S : ServerState) (sid t : String) (rm : Room) (data : List (String × JsVal))
    (r : Fin 6 → Fin 32) (now : Nat)
    (ht : (getF data "roomId").truthy = true)
    (hv : validateRoomId ((getF data "roomId").toStr) = true)
    (hrm : findA S.rooms ((getF data "roomId").toStr) = some rm)
    (htv : rm.tv = some t)
    (hlive : (sockOf S t).connected = true) :
    (t = sid →
      hasDisc (registerTv S sid data r now).2 = false ∧
      hasReplacedNotice (registerTv S sid data r now).2 = false ∧
      findA (registerTv S sid data r now).1.rooms ((getF data "roomId").toStr) =
        some { rm with tv := some sid }) ∧
    (t ≠ sid →
      Ev.emit t "replaced" [("message", JsVal.vStr "New TV connected to this room"),
        ("timestamp", JsVal.vNum now)] ∈ (registerTv S sid data r now).2 ∧
      Ev.disconnectCmd t ∈ (registerTv S sid data r now).2 ∧
      findA (registerTv S sid data r now).1.rooms ((getF data "roomId").toStr) =
        some { rm with tv := some sid }) := by
  have hres := resolveRoomId_valid data r ht hv
  constructor
  · intro hts
    subst hts
    unfold registerTv
    simp only [hres, hrm, htv]
    try dsimp only
    rw [if_neg (by simp)]
    try dsimp only
    simp only [hrm, Option.isNone_some, Bool.false_eq_true, if_false, ite_false,
      Option.getD_some]
    try dsimp only
    refine ⟨?_, ?_, ?_⟩
    · cases hm : rm.mobile
      · rfl
      · dsimp only
        repeat' first | rfl | split
    · cases hm : rm.mobile
      · rfl
      · dsimp only
        repeat' first | rfl | split
    · try simp only [updateSock]
      rw [findA_setA_self]
  · intro hts
    unfold registerTv
    simp only [hres, hrm, htv]
    try dsimp only
    rw [if_pos ⟨hlive, hts⟩]
    try dsimp only
    simp only [hrm, Option.isNone_some, Bool.false_eq_true, if_false, ite_false,
      Option.getD_some, updateSock]
    try dsimp only
    refine ⟨?_, ?_, ?_⟩
    · simp [List.mem_append]
    · simp [List.mem_append]
    · try simp only [updateSock]
      rw [findA_setA_self]

/-- C5 witness: the incumbent display re-registering under its own code
is refreshed without any eviction traffic. -/
theorem c5_display_slot_takeover_witness :
    hasDisc (registerTv statePaired "t1" [("roomId", JsVal.vStr "ROOM1")] zeroDraws 9).2 =
      false ∧
    hasReplacedNotice
      (registerTv statePaired "t1" [("roomId", JsVal.vStr "ROOM1")] zeroDraws 9).2 = false ∧
    findA (registerTv statePaired "t1" [("roomId", JsVal.vStr "ROOM1")] zeroDraws 9).1.rooms
      "ROOM1" = some { tv := some "t1", mobile := some "m1", createdAt := 0 } := by
  exact (c5_display_slot_takeover statePaired "t1" "t1"
    { tv := some "t1", mobile := some "m1", createdAt := 0 }
    [("roomId", JsVal.vStr "ROOM1")] zeroDraws 9
    rfl rfl rfl rfl rfl).1 rfl

theorem validateRoomId_ne_empty (s : String) (hv : validateRoomId s = true) : s ≠ "" := by
  intro he
  rw [he] at hv
  simp [validateRoomId] at hv

/-- C10: both registration handlers coerce the roomId payload with
toString before lookup, so the number n and the string form of n address
the same room, and a controller sending the numeric form joins the room
created under the equal string code. -/
theorem c10_numeric_room_code
    (S : ServerState) (sid : String) (n : Int) (r : Fin 6 → Fin 32) (now : Nat)
    (hn : n ≠ 0)
    (hv : validateRoomId (toString n) = true) :
    resolveRoomId [("roomId", JsVal.vNum n)] r = toString n ∧
    resolveRoomId [("roomId", JsVal.vStr (toString n))] r = toString n ∧
    (∀ (t : String) (rm : Room), findA S.rooms (toString n) = some rm → rm.tv = some t →
      (sockOf S t).connected = true →
      findA (registerMobile S sid [("roomId", JsVal.vNum n)] now).1.rooms (toString n) =
        some { rm with mobile := some sid } ∧
      Ev.emit sid "registered"
        [("deviceType", JsVal.vStr "mobile"), ("roomId", JsVal.vStr (toString n)),
         ("clientId", JsVal.vStr sid), ("connectedTV", JsVal.vBool true),
         ("tvId", JsVal.vStr t), ("timestamp", JsVal.vNum now),
         ("message", JsVal.vStr "Mobile registered successfully")]
        ∈ (registerMobile S sid [("roomId", JsVal.vNum n)] now).2) := by
  have hg : getF [("roomId", JsVal.vNum n)] "roomId" = JsVal.vNum n := rfl
  have htr : (JsVal.vNum n).truthy = true := by simp [JsVal.truthy, hn]
  have hne : toString n ≠ "" := validateRoomId_ne_empty _ hv
  have htr2 : (JsVal.vStr (toString n)).truthy = true := by simp [JsVal.truthy, hne]
  refine ⟨?_, ?_, ?_⟩
  · simp [resolveRoomId, hg, htr, JsVal.toStr, hv]
  · simp [resolveRoomId, getF, findA, htr2, JsVal.toStr, hv]
  · intro t rm hrm htv hcon
    unfold registerMobile
    rw [if_neg (by simp [hg, htr])]
    have hts : (getF [("roomId", JsVal.vNum n)] "roomId").toStr = toString n := rfl
    rw [hts, if_neg (by simp [hv]), hrm]
    dsimp only
    rw [htv]
    dsimp only
    rw [if_neg (by simp [hcon])]
    try dsimp only
    constructor
    · cases hm : rm.mobile with
      | none =>
        try dsimp only
        try simp only [updateSock]
        rw [findA_setA_self]
      | some m =>
        dsimp only
        split
        · try simp only [updateSock]
          rw [findA_setA_self]
        · try simp only [updateSock]
          rw [findA_setA_self]
    · cases hm : rm.mobile with
      | none => simp [List.mem_append]
      | some m =>
        dsimp only
        split
        · simp [List.mem_append]
        · simp [List.mem_append]

/-- C10 witness: a controller sending the number 1234 joins the room
created under the string 1234. -/
theorem c10_numeric_room_code_witness :
    findA (registerMobile stateNumCode "m1" [("roomId", JsVal.vNum 1234)] 5).1.rooms
      "1234" = some { tv := some "t1", mobile := some "m1", createdAt := 0 } ∧
    Ev.emit "m1" "registered"
      [("deviceType", JsVal.vStr "mobile"), ("roomId", JsVal.vStr "1234"),
       ("clientId", JsVal.vStr "m1"), ("connectedTV", JsVal.vBool true),
       ("tvId", JsVal.vStr "t1"), ("timestamp", JsVal.vNum 5),
       ("message", JsVal.vStr "Mobile registered successfully")]
      ∈ (registerMobile stateNumCode "m1" [("roomId", JsVal.vNum 1234)] 5).2 := by
  exact (c10_numeric_room_code stateNumCode "m1" 1234 zeroDraws 5
    (by decide) (by decide)).2.2 "t1"
    { tv := some "t1", mobile := none, createdAt := 0 } rfl rfl rfl

theorem findA_not_mem {α : Type} (l : List (String × α)) (k : String)
    (h : k ∉ l.map Prod.fst) : findA l k = none := by
  induction l with
  | nil => rfl
  | cons p t ih =>
    obtain ⟨k0, w⟩ := p
    simp only [List.map_cons, List.mem_cons] at h
    push_neg at h
    by_cases h0 : k0 = k
    · exact absurd h0.symm h.1
    · simp [findA, h0, ih h.2]

theorem findA_eraseA_self {α : Type} (l : List (String × α)) (k : String)
    (h : (l.map Prod.fst).Nodup) : findA (eraseA l k) k = none := by
  induction l with
  | nil => rfl
  | cons p t ih =>
    obtain ⟨k0, w⟩ := p
    simp only [List.map_cons, List.nodup_cons] at h
    by_cases h0 : k0 = k
    · subst h0
      simp only [eraseA, if_pos rfl]
      exact findA_not_mem t k0 h.1
    · simp [eraseA, findA, h0, ih h.2]

theorem slotLive_socks_eq (S S' : ServerState) (o : Option String)
    (h : S.socks = S'.socks) : slotLive S o = slotLive S' o := by
  cases o <;> simp [slotLive, sockOf, h]

theorem cleanupRoom_socks (S : ServerState) (rid reason : String) :
    (cleanupRoom S rid reason).1.socks = S.socks := by
  unfold cleanupRoom
  cases h : findA S.rooms rid <;> rfl

theorem dropPeer_spec (S1 : ServerState) (sid reason : String) (now : Nat)
    (rid : String) (rm : Room) :
    (dropPeerFromRoom S1 sid reason now rid rm).1.socks = S1.socks ∧
    ((sockOf S1 sid).deviceType = some "tv" ∧ rm.tv = some sid →
      (dropPeerFromRoom S1 sid reason now rid rm).2.2 = { rm with tv := none } ∧
      (dropPeerFromRoom S1 sid reason now rid rm).1.rooms =
        setA S1.rooms rid { rm with tv := none }) ∧
    (¬((sockOf S1 sid).deviceType = some "tv" ∧ rm.tv = some sid) →
      ((sockOf S1 sid).deviceType = some "mobile" ∧ rm.mobile = some sid →
        (dropPeerFromRoom S1 sid reason now rid rm).2.2 = { rm with mobile := none } ∧
        (dropPeerFromRoom S1 sid reason now rid rm).1.rooms =
          setA S1.rooms rid { rm with mobile := none }) ∧
      (¬((sockOf S1 sid).deviceType = some "mobile" ∧ rm.mobile = some sid) →
        dropPeerFromRoom S1 sid reason now rid rm = (S1, [], rm))) := by
  unfold dropPeerFromRoom
  by_cases h1 : ((sockOf S1 sid).deviceType = some "tv" ∧ rm.tv = some sid)
  · rw [if_pos h1]
    exact ⟨rfl, fun _ => ⟨rfl, rfl⟩, fun hc => absurd h1 hc⟩
  · rw [if_neg h1]
    by_cases h2 : ((sockOf S1 sid).deviceType = some "mobile" ∧ rm.mobile = some sid)
    · rw [if_pos h2]
      exact ⟨rfl, fun hc => absurd hc h1, fun _ => ⟨fun _ => ⟨rfl, rfl⟩, fun hc => absurd h2 hc⟩⟩
    · rw [if_neg h2]
      exact ⟨rfl, fun hc => absurd hc h1, fun _ => ⟨fun hc => absurd hc h2, fun _ => rfl⟩⟩

theorem disconnectCore_post (S1 : ServerState) (sid r1 : String) (n1 : Nat)
    (hnd : (S1.rooms.map Prod.fst).Nodup) :
    (disconnectCore S1 sid r1 n1).1.socks = S1.socks ∧
    ∀ rid rm1, (sockOf S1 sid).roomId = some rid →
      findA (disconnectCore S1 sid r1 n1).1.rooms rid = some rm1 →
      ¬((sockOf S1 sid).deviceType = some "tv" ∧ rm1.tv = some sid) ∧
      ¬((sockOf S1 sid).deviceType = some "mobile" ∧ rm1.mobile = some sid) ∧
      ¬(slotLive S1 rm1.tv = false ∧ slotLive S1 rm1.mobile = false) := by
  unfold disconnectCore
  dsimp only
  cases hrd : (sockOf S1 sid).roomId with
  | none =>
    refine ⟨rfl, ?_⟩
    intro rid rm1 h1 h2
    cases h1
  | some rid0 =>
    dsimp only
    cases hfm : findA S1.rooms rid0 with
    | none =>
      refine ⟨rfl, ?_⟩
      intro rid rm1 h1 h2
      have he : rid = rid0 := (Option.some_inj.mp h1).symm
      rw [he, hfm] at h2
      cases h2
    | some rm =>
      dsimp only
      obtain ⟨hsocks, hspec1, hspec2⟩ := dropPeer_spec S1 sid r1 n1 rid0 rm
      have hrooms : (dropPeerFromRoom S1 sid r1 n1 rid0 rm).1.rooms = S1.rooms ∨
          ∃ x, (dropPeerFromRoom S1 sid r1 n1 rid0 rm).1.rooms = setA S1.rooms rid0 x := by
        by_cases hc1 : ((sockOf S1 sid).deviceType = some "tv" ∧ rm.tv = some sid)
        · exact Or.inr ⟨_, (hspec1 hc1).2⟩
        · by_cases hc2 : ((sockOf S1 sid).deviceType = some "mobile" ∧ rm.mobile = some sid)
          · exact Or.inr ⟨_, ((hspec2 hc1).1 hc2).2⟩
          · rw [(hspec2 hc1).2 hc2]
            exact Or.inl rfl
      split
      · -- cleanup branch: the room entry is erased, so the premise is impossible
        constructor
        · rw [cleanupRoom_socks, hsocks]
        · intro rid rm1 h1 h2
          exfalso
          have he : rid = rid0 := (Option.some_inj.mp h1).symm
          rw [he, cleanupRoom_rooms] at h2
          rcases hrooms with hr | ⟨x, hr⟩
          · rw [hr, findA_eraseA_self _ _ hnd] at h2
            cases h2
          · rw [hr, eraseA_setA, findA_eraseA_self _ _ hnd] at h2
            cases h2
      · -- no cleanup: the surviving room cannot hold the peer, and has a live slot
        rename_i hcl
        refine ⟨hsocks, ?_⟩
        intro rid rm1 h1 h2
        have he : rid = rid0 := (Option.some_inj.mp h1).symm
        subst he
        by_cases hc1 : ((sockOf S1 sid).deviceType = some "tv" ∧ rm.tv = some sid)
        · obtain ⟨hroomv, hroomr⟩ := hspec1 hc1
          rw [hroomr, findA_setA_self] at h2
          have hrm1 : rm1 = { rm with tv := none } := (Option.some_inj.mp h2).symm
          refine ⟨?_, ?_, ?_⟩
          · rw [hrm1]; simp
          · rw [hc1.1]; simp
          · intro hx
            apply hcl
            rw [hroomv, ← hrm1]
            constructor
            · rw [slotLive_socks_eq _ S1 _ hsocks]; exact hx.1
            · rw [slotLive_socks_eq _ S1 _ hsocks]; exact hx.2
        · by_cases hc2 : ((sockOf S1 sid).deviceType = some "mobile" ∧ rm.mobile = some sid)
          · obtain ⟨hroomv, hroomr⟩ := (hspec2 hc1).1 hc2
            rw [hroomr, findA_setA_self] at h2
            have hrm1 : rm1 = { rm with mobile := none } := (Option.some_inj.mp h2).symm
            refine ⟨?_, ?_, ?_⟩
            · rw [hc2.1]; simp
            · rw [hrm1]; simp
            · intro hx
              apply hcl
              rw [hroomv, ← hrm1]
              constructor
              · rw [slotLive_socks_eq _ S1 _ hsocks]; exact hx.1
              · rw [slotLive_socks_eq _ S1 _ hsocks]; exact hx.2
          · have hdp := (hspec2 hc1).2 hc2
            rw [hdp] at h2
            dsimp only at h2
            rw [hfm] at h2
            have hrm1 : rm1 = rm := (Option.some_inj.mp h2).symm
            subst hrm1
            refine ⟨hc1, hc2, ?_⟩
            intro hx
            apply hcl
            rw [hdp]
            exact hx

theorem disconnectH_second (T : ServerState) (sid r2 : String) (n2 : Nat) (v : Sock)
    (hfind : findA T.socks sid = some v)
    (hvconn : v.connected = false)
    (hP : ∀ rid rm1, v.roomId = some rid → findA T.rooms rid = some rm1 →
      ¬(v.deviceType = some "tv" ∧ rm1.tv = some sid) ∧
      ¬(v.deviceType = some "mobile" ∧ rm1.mobile = some sid) ∧
      ¬(slotLive T rm1.tv = false ∧ slotLive T rm1.mobile = false)) :
    disconnectH T sid r2 n2 =
      ({ T with stats :=
        { T.stats with currentConnections := T.stats.currentConnections - 1 } }, []) := by
  have hsockT : sockOf T sid = v := by simp [sockOf, hfind]
  have hfv : (fun s : Sock => { s with connected := false }) (sockOf T sid) = v := by
    rw [hsockT]
    cases v with
    | mk c rid dt dn ihh lp lq =>
      simp at hvconn
      simp [hvconn]
  have hS0 : updateSock T sid (fun s => { s with connected := false }) = T := by
    unfold updateSock
    rw [hfv, setA_findA_self T.socks sid v hfind]
  show disconnectCore
      { updateSock T sid (fun s => { s with connected := false }) with stats :=
        { (updateSock T sid (fun s => { s with connected := false })).stats with
          currentConnections :=
            (updateSock T sid
              (fun s => { s with connected := false })).stats.currentConnections - 1 } }
      sid r2 n2 = _
  rw [hS0]
  unfold disconnectCore
  dsimp only
  have hsockM2 : sockOf
      { T with stats :=
        { T.stats with currentConnections := T.stats.currentConnections - 1 } } sid = v := by
    simp [sockOf, hfind]
  rw [hsockM2]
  cases hrd : v.roomId with
  | none => rfl
  | some rid =>
    dsimp only
    cases hfm : findA T.rooms rid with
    | none => rfl
    | some rm1 =>
      dsimp only
      obtain ⟨hna, hnb, hnc⟩ := hP rid rm1 hrd hfm
      obtain ⟨hsocks, hspec1, hspec2⟩ := dropPeer_spec
        { T with stats :=
          { T.stats with currentConnections := T.stats.currentConnections - 1 } }
        sid r2 n2 rid rm1
      have hdp : dropPeerFromRoom
          { T with stats :=
            { T.stats with currentConnections := T.stats.currentConnections - 1 } }
          sid r2 n2 rid rm1 =
          ({ T with stats :=
            { T.stats with currentConnections := T.stats.currentConnections - 1 } },
           [], rm1) :=
        (hspec2 (by rw [hsockM2]; exact hna)).2 (by rw [hsockM2]; exact hnb)
      rw [hdp]
      dsimp only
      rw [if_neg ?hcond]
      case hcond =>
        intro hx
        apply hnc
        constructor
        · rw [← hx.1]
          exact slotLive_socks_eq _ _ _ rfl
        · rw [← hx.2]
          exact slotLive_socks_eq _ _ _ rfl

/-- C9 counterexample: processing the same disconnect twice leaves the
currentConnections statistic different from its value after processing it
once. -/
theorem c9_double_disconnect_counterexample :
    (disconnectH (disconnectH statePaired "m1" "transport close" 1).1
        "m1" "transport close" 2).1.stats.currentConnections ≠
      (disconnectH statePaired "m1" "transport close" 1).1.stats.currentConnections := by
  decide

/-- C9 (amended): for any start state with duplicate-free room keys, the
second processing of the same disconnect emits nothing, clears no slot and
changes nothing except decrementing the global currentConnections counter
once more (floored at zero by Nat subtraction). -/
theorem c9_double_disconnect_amended (S : ServerState) (sid r1 r2 : String) (n1 n2 : Nat)
    (hnd : (S.rooms.map Prod.fst).Nodup) :
    disconnectH (disconnectH S sid r1 n1).1 sid r2 n2 =
      ({ (disconnectH S sid r1 n1).1 with stats :=
        { (disconnectH S sid r1 n1).1.stats with currentConnections :=
          (disconnectH S sid r1 n1).1.stats.currentConnections - 1 } }, []) := by
  have hM1 : disconnectH S sid r1 n1 =
      disconnectCore
        { S with socks := setA S.socks sid { sockOf S sid with connected := false },
                 stats := { S.stats with
                   currentConnections := S.stats.currentConnections - 1 } }
        sid r1 n1 := rfl
  obtain ⟨hsocks1, hP1⟩ := disconnectCore_post
    { S with socks := setA S.socks sid { sockOf S sid with connected := false },
             stats := { S.stats with
               currentConnections := S.stats.currentConnections - 1 } }
    sid r1 n1 hnd
  have hv : sockOf
      { S with socks := setA S.socks sid { sockOf S sid with connected := false },
               stats := { S.stats with
                 currentConnections := S.stats.currentConnections - 1 } } sid =
      { sockOf S sid with connected := false } := by
    simp [sockOf, findA_setA_self]
  have hfind : findA (disconnectH S sid r1 n1).1.socks sid =
      some { sockOf S sid with connected := false } := by
    rw [hM1, hsocks1]
    exact findA_setA_self _ _ _
  apply disconnectH_second (disconnectH S sid r1 n1).1 sid r2 n2
    { sockOf S sid with connected := false } hfind rfl
  intro rid rm1 h1 h2
  have h2' : findA (disconnectCore
      { S with socks := setA S.socks sid { sockOf S sid with connected := false },
               stats := { S.stats with
                 currentConnections := S.stats.currentConnections - 1 } }
      sid r1 n1).1.rooms rid = some rm1 := by
    rw [← hM1]
    exact h2
  have h1' : (sockOf
      { S with socks := setA S.socks sid { sockOf S sid with connected := false },
               stats := { S.stats with
                 currentConnections := S.stats.currentConnections - 1 } } sid).roomId =
      some rid := by
    rw [hv]
    exact h1
  obtain ⟨hna, hnb, hnc⟩ := hP1 rid rm1 h1' h2'
  rw [hv] at hna hnb
  refine ⟨hna, hnb, ?_⟩
  intro hx
  apply hnc
  have hse : (disconnectH S sid r1 n1).1.socks =
      ServerState.socks
        { S with socks := setA S.socks sid { sockOf S sid with connected := false },
                 stats := { S.stats with
                   currentConnections := S.stats.currentConnections - 1 } } := by
    rw [hM1, hsocks1]
  constructor
  · rw [← slotLive_socks_eq _ _ rm1.tv hse]
    exact hx.1
  · rw [← slotLive_socks_eq _ _ rm1.mobile hse]
    exact hx.2

/-- C9 witness: the double disconnect of the paired fixture mobile is a
pure counter decrement with an empty trace. -/
theorem c9_double_disconnect_amended_witness :
    disconnectH (disconnectH statePaired "m1" "transport close" 1).1
        "m1" "transport close" 2 =
      ({ (disconnectH statePaired "m1" "transport close" 1).1 with stats :=
        { (disconnectH statePaired "m1" "transport close" 1).1.stats with
          currentConnections :=
            (disconnectH statePaired "m1"
              "transport close" 1).1.stats.currentConnections - 1 } }, []) :=
  c9_double_disconnect_amended statePaired "m1" "transport close" "transport close" 1 2
    (by decide)

end PresRelay
